import Mathlib

/-!
Verification of the DXF codec vendored in tapnair/DXFImporter (the ezdxf
library).  Each section shallowly embeds one part of the Python source and
proves the properties that the natural language specification states about
it.  Machine floats are modelled by exact rationals, Python lists by Lean
lists, generators that may raise by functions into Except, and dynamic
attribute stores by association lists.
-/

namespace DXF

/-- The opening brace character as a one character string. -/
def lbraceStr : String := "\x7b"

/-- The closing brace character as a one character string. -/
def rbraceStr : String := "\x7d"

/-- Python str.startswith with the one character opening brace argument,
as used by the validator on 102 tag values: true when the first character
is an opening brace.  (Defined over the character list so that it reduces
in the kernel.) -/
def startswith_lbrace (s : String) : Bool :=
  match s.data with
  | [] => false
  | c :: _ => c == lbraceStr.data.headD ' '

/-- Value carried by a DXF tag after tag compilation: group code 0 to 9,
102, 1000 to 1009 tags carry strings, numeric group codes carry numbers
(floats modelled as rationals).  Only these two shapes are inspected by the
structural validator. -/
inductive TagValue where
  | str (s : String)
  | num (q : ℚ)
  deriving DecidableEq, Repr

/-- DXFTag from lldxf/types.py: an immutable (group code, value) pair. -/
structure DXFTag where
  code : Int
  value : TagValue
  deriving DecidableEq, Repr

/-- Group code of APP DATA markers (lldxf/const.py, not under src;
value 102, as stated by the spec and used throughout validator.py). -/
def APP_DATA_MARKER : Int := 102

/-- Group code starting an XDATA section (lldxf/const.py, not under src;
value 1001 per the validator docstring: XDATA starts with (1001, APPID)). -/
def XDATA_MARKER : Int := 1001

/-- Modelled from the spec: lldxf/types.py is not under src.  The embedded
object marker of DXF 2018 is the tag (101, Embedded Object). -/
def EMBEDDED_OBJ_MARKER : Int := 101

/-- Modelled from the spec: lldxf/types.py (which defines this predicate)
is not under src; a tag is an embedded object marker when its code is 101
and its value is the string Embedded Object. -/
def is_embedded_object_marker (tag : DXFTag) : Bool :=
  tag.code == EMBEDDED_OBJ_MARKER && tag.value == TagValue.str "Embedded Object"

/-- The three error kinds raised by entity_structure_validator
(lldxf/validator.py).  Error message strings are not modelled, only the
exception class that is raised. -/
inductive DXFErrorKind where
  | appDataError
  | xdataError
  | structureError
  deriving DecidableEq, Repr

/-- The loop state of entity_structure_validator (validator.py lines
113 up to 119): the local variables handle, app_data, xdata,
xdata_list_level, app_data_closing_tag and embedded_object. -/
structure VState where
  handle : TagValue
  app_data : Bool
  xdata : Bool
  xdata_list_level : Int
  app_data_closing_tag : String
  embedded_object : Bool
  deriving DecidableEq, Repr

/-- Initial state of the validator loop: handle is the placeholder string,
no APP DATA section open, no XDATA seen, list level 0, generic closing tag,
no embedded object seen. -/
def initial_vstate : VState :=
  { handle := TagValue.str "???", app_data := false, xdata := false,
    xdata_list_level := 0, app_data_closing_tag := rbraceStr,
    embedded_object := false }

/-- The XDATA section block of the validator loop (validator.py lines
131 up to 149): inside XDATA only group codes at least 1000 are allowed,
and 1002 control strings must be braces whose nesting level never drops
below zero. -/
def xdata_section_check (st : VState) (tag : DXFTag) :
    Except DXFErrorKind VState :=
  if st.xdata then
    if tag.code < 1000 then Except.error DXFErrorKind.xdataError
    else if tag.code == 1002 then
      match tag.value with
      | TagValue.str v =>
        if v == lbraceStr then
          Except.ok { st with xdata_list_level := st.xdata_list_level + 1 }
        else if v == rbraceStr then
          if st.xdata_list_level - 1 < 0 then Except.error DXFErrorKind.xdataError
          else Except.ok { st with xdata_list_level := st.xdata_list_level - 1 }
        else Except.error DXFErrorKind.xdataError
      | _ =>
        -- a 1002 tag carrying a non string compares unequal to both braces
        Except.error DXFErrorKind.xdataError
    else Except.ok st
  else Except.ok st

/-- The APP DATA block of the validator loop (validator.py lines 151 up
to 171): a 102 tag opens a section (value starting with a brace), closes
one (generic closing brace or the application specific closing tag), or is
rejected unless the entity is an XRECORD.  Compiled 102 tags always carry
strings; a non string value is treated like a value that is neither opener
nor closer. -/
def app_data_check (dxftype : TagValue) (st : VState) (tag : DXFTag) :
    Except DXFErrorKind VState :=
  if tag.code == APP_DATA_MARKER then
    match tag.value with
    | TagValue.str v =>
      if startswith_lbrace v then
        if st.app_data then Except.error DXFErrorKind.appDataError
        else Except.ok { st with app_data := true,
                                 app_data_closing_tag := v.drop 1 ++ rbraceStr }
      else if v == rbraceStr || v == st.app_data_closing_tag then
        if st.app_data then
          Except.ok { st with app_data := false,
                              app_data_closing_tag := rbraceStr }
        else Except.error DXFErrorKind.appDataError
      else if dxftype != TagValue.str "XRECORD" then
        Except.error DXFErrorKind.appDataError
      else Except.ok st
    | _ =>
      if dxftype != TagValue.str "XRECORD" then
        Except.error DXFErrorKind.appDataError
      else Except.ok st
  else Except.ok st

/-- The XDATA start block of the validator loop (validator.py lines 173
up to 181): the first 1001 tag starts the XDATA section, which is invalid
while an APP DATA section is still open. -/
def xdata_start_check (st : VState) (tag : DXFTag) :
    Except DXFErrorKind VState :=
  if tag.code == XDATA_MARKER && st.xdata == false then
    if st.app_data then Except.error DXFErrorKind.appDataError
    else Except.ok { st with xdata := true }
  else Except.ok st

/-- The two opening statements of the validator loop body (validator.py
lines 120 up to 125): record the first handle tag and detect the embedded
object marker. -/
def validator_track_state (st : VState) (tag : DXFTag) : VState :=
  let st1 := if tag.code == 5 && st.handle == TagValue.str "???" then
               { st with handle := tag.value } else st
  if is_embedded_object_marker tag then
    { st1 with embedded_object := true } else st1

/-- One iteration of the validator loop body (validator.py lines 120 up
to 181), in source order: record the first handle tag, detect the embedded
object marker, pass everything through untouched once an embedded object
was seen, then run the XDATA section, APP DATA and XDATA start checks. -/
def entity_structure_validator_step (dxftype : TagValue) (st0 : VState)
    (tag : DXFTag) : Except DXFErrorKind VState :=
  let st2 := validator_track_state st0 tag
  if st2.embedded_object then Except.ok st2
  else
    match xdata_section_check st2 tag with
    | Except.error e => Except.error e
    | Except.ok st3 =>
      match app_data_check dxftype st3 tag with
      | Except.error e => Except.error e
      | Except.ok st4 => xdata_start_check st4 tag

/-- The validator loop: steps through the tags, re-yielding each processed
tag; an error aborts the run.  Returns the final state together with the
yielded tags. -/
def entity_structure_validator_run (dxftype : TagValue) :
    VState → List DXFTag → Except DXFErrorKind (VState × List DXFTag)
  | st, [] => Except.ok (st, [])
  | st, t :: ts =>
    match entity_structure_validator_step dxftype st t with
    | Except.error e => Except.error e
    | Except.ok st2 =>
      match entity_structure_validator_run dxftype st2 ts with
      | Except.error e => Except.error e
      | Except.ok (stf, ys) => Except.ok (stf, t :: ys)

/-- entity_structure_validator (validator.py lines 89 up to 195): runs the
loop from the initial state, the entity type being the value of the first
tag, then applies the two closing checks: an APP DATA section still open
raises DXFAppDataError, an unbalanced XDATA list level raises
DXFXDataError.  On success the yielded tags are returned.  (The Python
function asserts a non empty list; the empty list is outside the modelled
domain and handled via a default head here.) -/
def entity_structure_validator (tags : List DXFTag) :
    Except DXFErrorKind (List DXFTag) :=
  let dxftype := (tags.headD { code := 0, value := TagValue.str "" }).value
  match entity_structure_validator_run dxftype initial_vstate tags with
  | Except.error e => Except.error e
  | Except.ok (st, ys) =>
    if st.app_data then Except.error DXFErrorKind.appDataError
    else if st.xdata && st.xdata_list_level != 0 then
      Except.error DXFErrorKind.xdataError
    else Except.ok ys

/-- Spec side validity of a per entity tag list, written after section 4.3
of the specification (independently of the validator loop): every 102 tag
is a proper APP DATA opener or closer (except in XRECORD entities, where a
102 tag that is neither is allowed), sections are never nested and all are
closed; once XDATA starts (a 1001 tag) only codes at least 1000 appear,
1002 values are braces whose nesting is balanced and never negative; no
embedded object marker occurs.  The parameters carry the scanning state:
the open APP DATA closing tag, whether XDATA started, the brace level. -/
def SpecValidFrom (xrecord : Bool) :
    Option String → Bool → Int → List DXFTag → Bool
  | appOpen, _, level, [] => appOpen.isNone && level == 0
  | appOpen, xdataOn, level, t :: ts =>
    if is_embedded_object_marker t then false
    else if xdataOn then
      if t.code < 1000 then false
      else if t.code == 1002 then
        match t.value with
        | TagValue.str v =>
          if v == lbraceStr then
            SpecValidFrom xrecord appOpen xdataOn (level + 1) ts
          else if v == rbraceStr then
            decide (0 < level) && SpecValidFrom xrecord appOpen xdataOn (level - 1) ts
          else false
        | _ => false
      else SpecValidFrom xrecord appOpen xdataOn level ts
    else if t.code == APP_DATA_MARKER then
      match t.value with
      | TagValue.str v =>
        if startswith_lbrace v then
          match appOpen with
          | some _ => false
          | none =>
            SpecValidFrom xrecord (some (v.drop 1 ++ rbraceStr)) xdataOn level ts
        else
          match appOpen with
          | some c =>
            if v == rbraceStr || v == c then
              SpecValidFrom xrecord none xdataOn level ts
            else xrecord && SpecValidFrom xrecord (some c) xdataOn level ts
          | none =>
            if v == rbraceStr then false
            else xrecord && SpecValidFrom xrecord none xdataOn level ts
      | _ => xrecord && SpecValidFrom xrecord appOpen xdataOn level ts
    else if t.code == XDATA_MARKER then
      appOpen.isNone && SpecValidFrom xrecord appOpen true level ts
    else SpecValidFrom xrecord appOpen xdataOn level ts

/-- Spec side validity of a full per entity tag list: scan from the empty
state; the entity is an XRECORD when the first value says so. -/
def SpecValid (tags : List DXFTag) : Bool :=
  SpecValidFrom
    ((tags.headD { code := 0, value := TagValue.str "" }).value ==
      TagValue.str "XRECORD") none false 0 tags

/-- The validator loop state corresponding to a spec side scanning state
(proof infrastructure). -/
def mkVState (h : TagValue) (appOpen : Option String) (xdataOn : Bool)
    (level : Int) : VState :=
  { handle := h, app_data := appOpen.isSome, xdata := xdataOn,
    xdata_list_level := level,
    app_data_closing_tag := appOpen.getD rbraceStr, embedded_object := false }

/-- A group code that triggers none of the validator checks outside an
XDATA section: not an APP DATA marker, not an XDATA start, not a list
brace, not the embedded object marker code. -/
def simpleCode (c : Int) : Bool :=
  !(c == APP_DATA_MARKER || c == XDATA_MARKER || c == 1002 ||
    c == EMBEDDED_OBJ_MARKER)

/-- A group code that passes through an open XDATA section unchecked:
at least 1000 and not a list brace code. -/
def xdataSimpleCode (c : Int) : Bool := decide (1000 ≤ c) && !(c == 1002)



/-- A table entry entity as far as table bookkeeping goes
(sections/table.py): the dxf.name attribute and the alive flag.  The
entity factory create_db_entry is not under src; modelled from the spec it
creates a table entry entity carrying the attributes passed in, of which
only the name matters here. -/
structure TableEntry where
  name : String
  alive : Bool
  deriving DecidableEq, Repr

/-- Assignment in a Python OrderedDict, modelled on an association list:
replace in place when the key exists, append at the end otherwise. -/
def odSet (l : List (String × TableEntry)) (k : String) (v : TableEntry) :
    List (String × TableEntry) :=
  match l with
  | [] => [(k, v)]
  | (k2, v2) :: ts => if k2 = k then (k, v) :: ts else (k2, v2) :: odSet ts k v

/-- Table (sections/table.py): an ordered mapping from the unified lower
case key to the entry.  The table head and the document back reference are
not modelled; they do not take part in the name keyed behaviour. -/
structure Table where
  entries : List (String × TableEntry)
  deriving DecidableEq, Repr

/-- Errors raised by the table interface; only the exception class is
modelled. -/
inductive TableError where
  | tableEntryError
  deriving DecidableEq, Repr

/-- Table.key (table.py lines 72 up to 78): the unified table entry key is
the lower cased name.  (Python str.lower modelled as a character map.) -/
def Table.key (name : String) : String := ⟨name.data.map Char.toLower⟩

/-- Table.has_entry (table.py): true when the key is present. -/
def Table.has_entry (t : Table) (name : String) : Bool :=
  (t.entries.lookup (Table.key name)).isSome

/-- Table.get (table.py lines 117 up to 124): look the key up, return the
entry when present (entities are truthy), raise DXFTableEntryError when
absent. -/
def Table.get (t : Table) (name : String) : Except TableError TableEntry :=
  match t.entries.lookup (Table.key name) with
  | some e => Except.ok e
  | none => Except.error TableError.tableEntryError

/-- Table._append (table.py lines 185 up to 187): store the entry under
the key of its own name, replacing an existing entry with the same key. -/
def Table._append (t : Table) (e : TableEntry) : Table :=
  { entries := odSet t.entries (Table.key e.name) e }

/-- Table.new_entry (table.py lines 169 up to 177): create the entry with
the given dxfattribs via the factory and append it (no duplicate check
here). -/
def Table.new_entry (t : Table) (name : String) : Table × TableEntry :=
  let e : TableEntry := { name := name, alive := true }
  (t._append e, e)

/-- Table.new (table.py lines 101 up to 115): raise DXFTableEntryError if
an entry with the same key already exists, otherwise create and append. -/
def Table.new (t : Table) (name : String) :
    Except TableError (Table × TableEntry) :=
  if t.has_entry name then Except.error TableError.tableEntryError
  else Except.ok (t.new_entry name)

/-- Table.__len__ (table.py): the count of stored entries. -/
def Table.len (t : Table) : Nat := t.entries.length

/-- Table.__iter__ (table.py): the stored entries that are alive. -/
def Table.iter (t : Table) : List TableEntry :=
  (t.entries.map Prod.snd).filter (fun e => e.alive)

/-- The well formedness invariant of a Table: every entry is stored under
the key of its own name, and keys are unique. -/
def Table.wf (t : Table) : Prop :=
  (∀ p ∈ t.entries, p.1 = Table.key p.2.name) ∧
  (t.entries.map Prod.fst).Nodup

/-- ViewportTable (table.py lines 287 up to 336): each key maps to the
list of VPORT entries sharing that name. -/
structure ViewportTable where
  entries : List (String × List TableEntry)
  deriving DecidableEq, Repr

/-- ViewportTable._append (table.py lines 330 up to 336): append the entry
to the list stored under its key, or start a new one element list. -/
def vodAppend (l : List (String × List TableEntry)) (k : String)
    (e : TableEntry) : List (String × List TableEntry) :=
  match l with
  | [] => [(k, [e])]
  | (k2, es) :: ts =>
    if k2 = k then (k2, es ++ [e]) :: ts else (k2, es) :: vodAppend ts k e

/-- ViewportTable.new (table.py lines 291 up to 296): create a new entry
without any duplicate name check and append it. -/
def ViewportTable.new (vt : ViewportTable) (name : String) :
    ViewportTable × TableEntry :=
  let e : TableEntry := { name := name, alive := true }
  ({ entries := vodAppend vt.entries (Table.key name) e }, e)

/-- ViewportTable._flatten (table.py lines 309 up to 311): all stored
entries, list by list. -/
def ViewportTable._flatten (vt : ViewportTable) : List TableEntry :=
  (vt.entries.map Prod.snd).flatten

/-- ViewportTable.__len__ (table.py lines 313 up to 315): the flattened
count. -/
def ViewportTable.len (vt : ViewportTable) : Nat := vt._flatten.length

/-- ViewportTable.__iter__ (table.py lines 305 up to 307): yields every
stored entry of every per name list. -/
def ViewportTable.iter (vt : ViewportTable) : List TableEntry :=
  (vt.entries.map Prod.snd).flatten


/-- ONE_CHAR_COMMANDS (entities/mtext.py line 383): the single character
formatting commands of the MTEXT inline language. -/
def ONE_CHAR_COMMANDS : List Char := ['P', 'L', 'l', 'O', 'o', 'K', 'k', 'X']

/-- SPECIAL_CHARS.get(c, default empty string) (mtext.py lines 384 up to
386): the special character replacement table. -/
def SPECIAL_CHARS_get (c : Char) : String :=
  if c = 'd' then "°" else ""

/-- The loop of plain_text (entities/mtext.py lines 339 up to 379),
processing the characters in order (the Python code reverses the list so
that pop() visits them in order).  The nested while loop consuming a multi
character command up to its semicolon is rendered as the mode parameter:
none outside a command, some stacking inside one (stacking commands append
the consumed user data).  The accumulated list of strings is modelled as
one string since it is only ever joined. -/
def plain_text_loop (mode : Option Bool) (acc : String) :
    List Char → String
  | [] => acc
  | c :: raw =>
    match mode with
    | some stacking =>
      let acc2 := if stacking && c != ';' then acc.push c else acc
      if c = ';' then plain_text_loop none acc2 raw
      else plain_text_loop (some stacking) acc2 raw
    | none =>
      if c = '\\' then
        match raw with
        | [] => acc
        | c2 :: raw2 =>
          if c2 = '\\' ∨ c2 = '\x7b' ∨ c2 = '\x7d' then
            plain_text_loop none (acc.push c2) raw2
          else if c2 ∈ ONE_CHAR_COMMANDS then
            if c2 = 'P' then plain_text_loop none (acc.push '\n') raw2
            else plain_text_loop none acc raw2
          else
            if c2 = ';' then plain_text_loop none acc raw2
            else plain_text_loop (some (c2 = 'S')) acc raw2
      else if c = '\x7b' ∨ c = '\x7d' then
        plain_text_loop none acc raw
      else if c = '%' then
        match raw with
        | [] => plain_text_loop none (acc.push '%') []
        | d :: raw2 =>
          if d = '%' then
            match raw2 with
            | [] => plain_text_loop none acc []
            | e :: raw3 =>
              plain_text_loop none (acc ++ SPECIAL_CHARS_get e) raw3
          else plain_text_loop none (acc.push '%') (d :: raw2)
      else plain_text_loop none (acc.push c) raw

/-- plain_text(text) with split=False (mtext.py lines 348 up to 381). -/
def plain_text (text : String) : String :=
  plain_text_loop none "" text.data

/-- plain_text(text) with split=True: the joined result split at line
breaks, Python str.split semantics. -/
def plain_text_split (text : String) : List String :=
  (((plain_text text).data.splitOn '\n').map fun cs => (⟨cs⟩ : String))


/-- A raw tag as produced by ascii_tags_loader (lldxf/tagger.py): a group
code and an unparsed value of type V (Python strings; the type is kept
abstract together with the parsing functions, so that dynamic typing and
ValueError raising parses are modelled faithfully).  Pre compiled
DXFBinaryTag inputs only occur on the binary DXF path, which is not
modelled here. -/
structure RawTag (V : Type) where
  code : Int
  value : V
  deriving DecidableEq, Repr

/-- The three wire categories of TYPE_TABLE.get(code, str)
(lldxf/types.py, not under src): a group code parses as string, float or
int. -/
inductive TagType where
  | str
  | float
  | int
  deriving DecidableEq, Repr

/-- The static tables and Python conversions tag_compiler depends on.
Modelled from the spec: POINT_CODES, BINARY_DATA and TYPE_TABLE live in
lldxf/types.py which is not under src (the spec: group codes determine
the value type, point base codes pair into points); the Python conversions
float(), int(), str() and DXFBinaryTag.from_string are the host language.
A parse returning none models a raised ValueError. -/
structure TagCompilerCtx (V : Type) where
  POINT_CODES : Int → Bool
  BINARY_DATA : Int → Bool
  TYPE_TABLE : Int → TagType
  pyfloat : V → Option ℚ
  pyint : V → Option ℤ
  pystr : V → String
  frombinary : V → Option (List ℕ)

/-- float(x.value) for a raw tag. -/
def RawTag.floatValue {V : Type} (ctx : TagCompilerCtx V) (t : RawTag V) :
    Option ℚ := ctx.pyfloat t.value

/-- A compiled tag value: string, int or float. -/
inductive CompiledValue where
  | s (v : String)
  | i (v : ℤ)
  | f (v : ℚ)
  deriving DecidableEq, Repr

/-- A compiled 2d or 3d point. -/
inductive Point where
  | p2 (x y : ℚ)
  | p3 (x y z : ℚ)
  deriving DecidableEq, Repr

/-- A tag yielded by tag_compiler: a plain typed tag, a DXFVertex carrying
a compiled point, or a DXFBinaryTag carrying bytes. -/
inductive CompiledTag where
  | tag (code : Int) (value : CompiledValue)
  | vertex (code : Int) (point : Point)
  | binary (code : Int) (data : List ℕ)
  deriving DecidableEq, Repr

/-- Python int(float(v)) truncates toward zero. -/
def pytrunc (q : ℚ) : ℤ := if 0 ≤ q then q.floor else q.ceil

/-- The single tag fast and slow path of tag_compiler (tagger.py lines
262 up to 274): TYPE_TABLE.get(code, str)(x.value); on a ValueError with
an int typed code, int(float(x.value)) is tried (ProE stores ints as
floats); a remaining ValueError is a DXFStructureError. -/
def convert_value {V : Type} (ctx : TagCompilerCtx V) (code : Int)
    (v : V) : Except DXFErrorKind CompiledValue :=
  match ctx.TYPE_TABLE code with
  | TagType.str => Except.ok (CompiledValue.s (ctx.pystr v))
  | TagType.float =>
    match ctx.pyfloat v with
    | some q => Except.ok (CompiledValue.f q)
    | none => Except.error DXFErrorKind.structureError
  | TagType.int =>
    match ctx.pyint v with
    | some i => Except.ok (CompiledValue.i i)
    | none =>
      match ctx.pyfloat v with
      | some q => Except.ok (CompiledValue.i (pytrunc q))
      | none => Except.error DXFErrorKind.structureError

/-- tag_compiler (lldxf/tagger.py lines 199 up to 274).  The generator
over the tagger iterator becomes a function over the tag list: next()
moves down the list, StopIteration (possibly inside a point fetch, which
silently drops the incomplete point) ends the run, undo_tag becomes
re-processing the pushed back tag at the head of the rest, and raised
DXFStructureError aborts.  The line counter only feeds error messages and
is not modelled. -/
def tag_compiler {V : Type} (ctx : TagCompilerCtx V) :
    List (RawTag V) → Except DXFErrorKind (List CompiledTag)
  | [] => Except.ok []
  | x :: rest =>
    if ctx.POINT_CODES x.code then
      match rest with
      | [] => Except.ok []
      | y :: rest2 =>
        if y.code ≠ x.code + 10 then Except.error DXFErrorKind.structureError
        else
          match rest2 with
          | [] => Except.ok []
          | z :: rest3 =>
            if z.code == x.code + 20 then
              match x.floatValue ctx, y.floatValue ctx, z.floatValue ctx with
              | some a, some b, some c =>
                (tag_compiler ctx rest3).map
                  (fun l => CompiledTag.vertex x.code (Point.p3 a b c) :: l)
              | _, _, _ => Except.error DXFErrorKind.structureError
            else
              match x.floatValue ctx, y.floatValue ctx with
              | some a, some b =>
                (tag_compiler ctx (z :: rest3)).map
                  (fun l => CompiledTag.vertex x.code (Point.p2 a b) :: l)
              | _, _ => Except.error DXFErrorKind.structureError
    else if ctx.BINARY_DATA x.code then
      match ctx.frombinary x.value with
      | some d =>
        (tag_compiler ctx rest).map
          (fun l => CompiledTag.binary x.code d :: l)
      | none => Except.error DXFErrorKind.structureError
    else
      match convert_value ctx x.code x.value with
      | Except.ok cv =>
        (tag_compiler ctx rest).map
          (fun l => CompiledTag.tag x.code cv :: l)
      | Except.error e => Except.error e
termination_by ts => ts.length
decreasing_by all_goals simp_arith

/-- A concrete tag compiler context over already parsed rational values,
for evaluating the compiler on concrete inputs: the point base codes
follow the spec data model (10 up to 19, 110 up to 112, 210, 1010 up to
1013; the source comments in tagger.py name 10 and 1010 up to 1013 as
point base codes), every code parses as float, and no binary codes. -/
def ctxQ : TagCompilerCtx ℚ :=
  { POINT_CODES := fun c =>
      decide ((10 ≤ c ∧ c ≤ 19) ∨ (110 ≤ c ∧ c ≤ 112) ∨ c = 210 ∨
        (1010 ≤ c ∧ c ≤ 1013))
    BINARY_DATA := fun _ => false
    TYPE_TABLE := fun _ => TagType.float
    pyfloat := fun q => some q
    pyint := fun q => if q.den = 1 then some q.num else none
    pystr := fun _ => ""
    frombinary := fun _ => none }


/-- Plane vectors over exact rationals (floats modelled as rationals). -/
abbrev Vec2 := ℚ × ℚ

/-- Vector difference, as Vec2.__sub__ of the vector module. -/
def vsub (u v : Vec2) : Vec2 := (u.1 - v.1, u.2 - v.2)

/-- Squared distance between two points.  Distances and radii are floats
obtained by a square root in the source; over the rationals all metric
statements are made on squares. -/
def dist_sq (u v : Vec2) : ℚ := (u.1 - v.1) ^ 2 + (u.2 - v.2) ^ 2

/-- Twice the signed triangle area; zero exactly for collinear points. -/
def det3 (a b c : Vec2) : ℚ :=
  a.1 * (b.2 - c.2) + b.1 * (c.2 - a.2) + c.1 * (a.2 - b.2)

/-- Errors of the arc constructions: ValueError for coincident points,
ParallelRaysError when the perpendicular bisectors of collinear points do
not intersect. -/
inductive ArcError where
  | valueError
  | parallelRaysError
  deriving DecidableEq, Repr

/-- The circumcenter of three points by the standard closed form.
Modelled from the spec: math/circle.py (ConstructionCircle) is not under
src; the spec states that arc construction from three points is the exact
closed form circumcircle, whose center is the intersection of the
perpendicular bisectors — the determinant formula below. -/
def circumcenter (a b c : Vec2) : Vec2 :=
  let d := 2 * det3 a b c
  (((a.1 ^ 2 + a.2 ^ 2) * (b.2 - c.2) + (b.1 ^ 2 + b.2 ^ 2) * (c.2 - a.2) +
      (c.1 ^ 2 + c.2 ^ 2) * (a.2 - b.2)) / d,
   ((a.1 ^ 2 + a.2 ^ 2) * (c.1 - b.1) + (b.1 ^ 2 + b.2 ^ 2) * (a.1 - c.1) +
      (c.1 ^ 2 + c.2 ^ 2) * (b.1 - a.1)) / d)

/-- ConstructionCircle as far as from_3p uses it: center and squared
radius (modelled from the spec, circle.py not under src). -/
structure ConstructionCircle where
  center : Vec2
  radius_sq : ℚ
  deriving DecidableEq, Repr

/-- ConstructionCircle.from_3p: circumcircle of three points (modelled
from the spec, circle.py not under src). -/
def ConstructionCircle.from_3p (p1 p2 p3 : Vec2) : ConstructionCircle :=
  let ctr := circumcenter p1 p2 p3
  { center := ctr, radius_sq := dist_sq ctr p1 }

/-- ConstructionArc (math/arc.py lines 19 up to 45): center, radius
(kept squared) and the two angles in degrees.  The angle type is kept
abstract, since angles come from an arctangent of the absent vector
module. -/
structure ConstructionArc (A : Type) where
  center : Vec2
  radius_sq : ℚ
  start_angle : A
  end_angle : A

/-- The ConstructionArc constructor (arc.py lines 31 up to 45):
is_counter_clockwise false swaps start and end angle. -/
def ConstructionArc.make {A : Type} (center : Vec2) (radius_sq : ℚ)
    (sa ea : A) (is_counter_clockwise : Bool) : ConstructionArc A :=
  if is_counter_clockwise then
    { center := center, radius_sq := radius_sq,
      start_angle := sa, end_angle := ea }
  else
    { center := center, radius_sq := radius_sq,
      start_angle := ea, end_angle := sa }

/-- ConstructionArc.from_3p (math/arc.py lines 181 up to 208): validate
the three points (ValueError on coincidence), construct the circumcircle
(whose bisector intersection raises ParallelRaysError for collinear
points, here checked by the vanishing determinant up front), and build the
arc with the angles of start and end point relative to the center.  The
degree angle function (Vec2.angle_deg, an arctangent) is the parameter
ang. -/
def ConstructionArc.from_3p {A : Type} (ang : Vec2 → A)
    (start_point end_point def_point : Vec2) (ccw : Bool) :
    Except ArcError (ConstructionArc A) :=
  if start_point = end_point then Except.error ArcError.valueError
  else if def_point = start_point ∨ def_point = end_point then
    Except.error ArcError.valueError
  else if det3 start_point end_point def_point = 0 then
    Except.error ArcError.parallelRaysError
  else
    let circle := ConstructionCircle.from_3p start_point end_point def_point
    let center := circle.center
    Except.ok (ConstructionArc.make center circle.radius_sq
      (ang (vsub start_point center)) (ang (vsub end_point center)) ccw)


/-- The recursive Cox de Boor basis function N(i, p) of bspline_basis
(math/bspline.py lines 319 up to 356).  The memo cache of the source is
transparent for a pure function; Python list indexing is modelled with a
default that no in bounds run ever reads. -/
def bspline_basis_N (knots : List ℚ) (u : ℚ) : ℕ → ℕ → ℚ
  | i, 0 => if knots.getD i 0 ≤ u ∧ u < knots.getD (i + 1) 0 then 1 else 0
  | i, p + 1 =>
    (if knots.getD (i + p + 1) 0 - knots.getD i 0 ≠ 0 then
       (u - knots.getD i 0) / (knots.getD (i + p + 1) 0 - knots.getD i 0) *
         bspline_basis_N knots u i p
     else 0) +
    (if knots.getD (i + p + 2) 0 - knots.getD (i + 1) 0 ≠ 0 then
       (knots.getD (i + p + 2) 0 - u) /
           (knots.getD (i + p + 2) 0 - knots.getD (i + 1) 0) *
         bspline_basis_N knots u (i + 1) p
     else 0)

/-- bspline_basis(u, index, degree, knots) (bspline.py lines 319 up to
356). -/
def bspline_basis (u : ℚ) (index : ℕ) (degree : ℕ) (knots : List ℚ) : ℚ :=
  bspline_basis_N knots u index degree

/-- bspline_basis_vector(u, count, degree, knots) (bspline.py lines 358
up to 378): the recursive basis at every control point index, with the
endpoint patch (basis[-1] = 1) when u is close to the last knot.  The
float comparison math.isclose is the parameter isclose; both evaluation
paths call it on the same arguments. -/
def bspline_basis_vector (isclose : ℚ → ℚ → Bool) (u : ℚ) (count : ℕ)
    (degree : ℕ) (knots : List ℚ) : List ℚ :=
  let basis := (List.range count).map
    (fun index => bspline_basis u index degree knots)
  if isclose u (knots.getLastD 0) then basis.set (count - 1) 1 else basis

/-- The Basis class (bspline.py lines 575 up to 613): knot vector, order,
control point count and optional weights. -/
structure Basis where
  knots : List ℚ
  order : ℕ
  count : ℕ
  weights : Option (List ℚ)

/-- Basis.max_t: the last knot. -/
def Basis.max_t (b : Basis) : ℚ := b.knots.getLastD 0

/-- Basis.nplusc. -/
def Basis.nplusc (b : Basis) : ℕ := b.count + b.order

/-- Basis.create_nbasis(t) (bspline.py lines 590 up to 597): the first
order basis functions, one per consecutive knot pair. -/
def Basis.create_nbasis (b : Basis) (t : ℚ) : List ℚ :=
  (b.knots.zip b.knots.tail).map
    (fun p => if p.1 ≤ t ∧ t < p.2 then 1 else 0)

/-- One iteration of the inner loop of Basis.basis (bspline.py lines 603
up to 606): overwrite nbasis[i] with d + e, the guards testing the old
nbasis entries against zero. -/
def basis_step (knots : List ℚ) (t : ℚ) (k : ℕ) (nb : List ℚ) (i : ℕ) :
    List ℚ :=
  let d := if nb.getD i 0 ≠ 0 then
      ((t - knots.getD i 0) * nb.getD i 0) /
        (knots.getD (i + k - 1) 0 - knots.getD i 0)
    else 0
  let e := if nb.getD (i + 1) 0 ≠ 0 then
      ((knots.getD (i + k) 0 - t) * nb.getD (i + 1) 0) /
        (knots.getD (i + k) 0 - knots.getD (i + 1) 0)
    else 0
  nb.set i (d + e)

/-- The two nested loops of Basis.basis (bspline.py lines 601 up to 606):
for k in range(2, order + 1), for i in range(nplusc - k). -/
def Basis.basis_loop (b : Basis) (t : ℚ) : List ℚ :=
  (List.range' 2 (b.order - 1)).foldl
    (fun nb k => (List.range (b.nplusc - k)).foldl (basis_step b.knots t k) nb)
    (b.create_nbasis t)

/-- Basis.weighting (bspline.py lines 609 up to 613). -/
def Basis.weighting (b : Basis) (w : List ℚ) (nbasis : List ℚ) : List ℚ :=
  let products := (nbasis.zip w).map (fun p => p.1 * p.2)
  let s := products.sum
  if s = 0 then List.replicate b.count 0
  else products.map (fun p => p / s)

/-- Basis.basis(t) (bspline.py lines 599 up to 608): the iterative
tabulation, the endpoint patch when t is close to max_t, truncation to
count entries, and the weighting path when weights are present. -/
def Basis.basis (b : Basis) (isclose : ℚ → ℚ → Bool) (t : ℚ) : List ℚ :=
  let nbasis := b.basis_loop t
  let nbasis := if isclose t b.max_t then nbasis.set (b.count - 1) 1
    else nbasis
  match b.weights with
  | none => nbasis.take b.count
  | some w => b.weighting w (nbasis.take b.count)

/-- The entity interface of virtual_block_reference_entities
(explode.py lines 98 up to 320).  The entity classes live in
ezdxf/entities which is outside the embedded core, so the per entity
operations are abstract: copy returns none on DXFTypeError,
transform_to_wcs returns none on NotImplementedError, adjust_ellipse
returns none on ArithmeticError in rytz_axis_construction, from_arc is
Ellipse.from_arc, virtual_entities is the (LW)POLYLINE decomposition
into primitives, and the scale_ functions are the in place DXF
attribute scalings of the respective dxftype branch. -/
structure XCtx (E : Type) where
  dxftype : E → String
  has_arc : E → Bool
  virtual_entities : E → List E
  copy : E → Option E
  transform_to_wcs : E → Option E
  from_arc : E → E
  associative : E → Bool
  remove_associations : E → E
  has_critical_elements : E → Bool
  adjust_ellipse : E → Option E
  scale_radius : E → E
  scale_mtext : E → E
  scale_text : E → E
  scale_insert : E → E
  scale_shape : E → E
  scale_hatch : E → E

/-- Concatenation of per entity (yielded, skipped) pairs, preserving
the generator order. -/
def collect {A B : Type} (ps : List (List A × List B)) : List A × List B :=
  ps.foldr (fun p acc => (p.1 ++ acc.1, p.2 ++ acc.2)) ([], [])

/-- has_uniform_scaling of the INSERT entity: xscale == yscale == zscale
with signed comparison, per the comments of explode.py lines 187 up to
198 ((-1, -1, -1) is uniform scaling, mirroring about an axis is not). -/
def has_uniform_scaling (x y z : ℚ) : Bool := x == y && y == z

/-- has_non_uniform_scaling of explode.py lines 185 up to 207: inside
has_scaling it is the negation of has_uniform_scaling, and a uniform
reflection about all three axes (xscale < 0) is handled explicitly as
non uniform scaling; without scaling it is False. -/
def has_non_uniform_scaling (has_scaling : Bool) (x y z : ℚ) : Bool :=
  if has_scaling then
    (!(has_uniform_scaling x y z)) ||
      (has_uniform_scaling x y z && decide (x < 0))
  else false

/-- One entity of the inner generator disassemble (explode.py lines 133
up to 178): ATTDEF entities are dropped, under non uniform scaling ARC
and CIRCLE become Ellipse.from_arc and (LW)POLYLINE entities with arc
segments are decomposed into their virtual entities with every ARC
segment converted by Ellipse.from_arc; otherwise the entity is copied
(a failing copy is skipped as non copyable) and a HATCH copy loses its
associations and is skipped under non uniform scaling when its paths
have critical elements. -/
def disassemble_entity {E : Type} (ctx : XCtx E) (hnus : Bool)
    (entity : E) : List E × List (E × String) :=
  if ctx.dxftype entity = "ATTDEF" then ([], [])
  else if hnus = true ∧
      (ctx.dxftype entity = "ARC" ∨ ctx.dxftype entity = "CIRCLE") then
    ([ctx.from_arc entity], [])
  else if hnus = true ∧
      (ctx.dxftype entity = "LWPOLYLINE" ∨
        ctx.dxftype entity = "POLYLINE") ∧
      ctx.has_arc entity = true then
    ((ctx.virtual_entities entity).map
      (fun s => if ctx.dxftype s = "ARC" then ctx.from_arc s else s), [])
  else
    match ctx.copy entity with
    | none => ([], [(entity, "non copyable")])
    | some c =>
      if ctx.dxftype c = "HATCH" then
        if hnus = true ∧
            ctx.has_critical_elements
              (if ctx.associative c = true then
                ctx.remove_associations c else c) = true then
          ([], [(entity, "unsupported non-uniform scaling")])
        else
          ([if ctx.associative c = true then
              ctx.remove_associations c else c], [])
      else ([c], [])

/-- disassemble over a whole block layout (explode.py lines 133 up to
178). -/
def disassemble {E : Type} (ctx : XCtx E) (hnus : Bool) (es : List E) :
    List E × List (E × String) :=
  collect (es.map (disassemble_entity ctx hnus))

/-- The simple entities of the scaling dispatch (explode.py line 227)
that need no further attribute scaling. -/
def SIMPLE_TYPES : List String :=
  ["LINE", "POINT", "LWPOLYLINE", "POLYLINE", "MESH", "SPLINE", "SOLID",
   "3DFACE", "TRACE", "IMAGE", "WIPEOUT", "XLINE", "RAY", "LIGHT",
   "HELIX"]

/-- The DXF attribute scaling dispatch on the dxftype taken before the
transformation (explode.py lines 224 up to 318); the error value is the
reason handed to the skipped entity callback. -/
def apply_scaling {E : Type} (ctx : XCtx E) (hnus : Bool) (d : String)
    (e : E) : Except String E :=
  if d ∈ SIMPLE_TYPES then .ok e
  else if d = "CIRCLE" ∨ d = "ARC" then .ok (ctx.scale_radius e)
  else if d = "ELLIPSE" then
    if hnus = true then
      match ctx.adjust_ellipse e with
      | none => .error "axis construction error - please send a bug report."
      | some e2 => .ok e2
    else .ok e
  else if d = "MTEXT" then .ok (ctx.scale_mtext e)
  else if d = "TEXT" ∨ d = "ATTRIB" then .ok (ctx.scale_text e)
  else if d = "INSERT" then .ok (ctx.scale_insert e)
  else if d = "SHAPE" then .ok (ctx.scale_shape e)
  else if d = "HATCH" then .ok (ctx.scale_hatch e)
  else .error "unsupported entity"

/-- One iteration of the main loop of virtual_block_reference_entities
(explode.py lines 209 up to 320): the dxftype is read first, a failing
transform_to_wcs skips the entity as non transformable, then with
scaling present the attribute scaling dispatch runs and may skip, and
the surviving entity is yielded. -/
def vbre_entity {E : Type} (ctx : XCtx E) (hs hnus : Bool) (e : E) :
    List E × List (E × String) :=
  match ctx.transform_to_wcs e with
  | none => ([], [(e, "non transformable")])
  | some te =>
    if hs = true then
      match apply_scaling ctx hnus (ctx.dxftype e) te with
      | .error r => ([], [(te, r)])
      | .ok se => ([se], [])
    else ([te], [])

/-- The contribution of one block entity to the whole generator: its
disassembled parts are consumed by the main loop as they are produced,
so its skip notifications precede the main loop events of its parts. -/
def vbre_block_entity {E : Type} (ctx : XCtx E) (hs hnus : Bool)
    (e : E) : List E × List (E × String) :=
  ((collect ((disassemble_entity ctx hnus e).1.map
      (vbre_entity ctx hs hnus))).1,
   (disassemble_entity ctx hnus e).2 ++
     (collect ((disassemble_entity ctx hnus e).1.map
      (vbre_entity ctx hs hnus))).2)

/-- virtual_block_reference_entities (explode.py lines 98 up to 320)
over the block layout entities, with the scaling flags of lines 185 up
to 207: the pair of the yielded virtual entities and of the
(entity, reason) skip notifications, in generator order. -/
def virtual_block_reference_entities {E : Type} (ctx : XCtx E)
    (hs : Bool) (x y z : ℚ) (es : List E) : List E × List (E × String) :=
  collect (es.map
    (vbre_block_entity ctx hs (has_non_uniform_scaling hs x y z)))

/-- A concrete entity world for evaluation: an entity is its dxftype,
the entity named XXX has no WCS transformation. -/
def demo_xctx : XCtx String where
  dxftype := fun s => s
  has_arc := fun _ => true
  virtual_entities := fun _ => ["LINE", "ARC"]
  copy := fun s => some s
  transform_to_wcs := fun s => if s = "XXX" then none else some s
  from_arc := fun _ => "ELLIPSE"
  associative := fun _ => false
  remove_associations := fun s => s
  has_critical_elements := fun _ => false
  adjust_ellipse := fun s => some s
  scale_radius := fun s => s
  scale_mtext := fun s => s
  scale_text := fun s => s
  scale_insert := fun s => s
  scale_shape := fun s => s
  scale_hatch := fun s => s

end DXF

namespace DXF

/-- The validator run re-yields exactly the tags it has processed. -/
theorem validator_run_yields (dxftype : TagValue) :
    ∀ (ts : List DXFTag) (st stf : VState) (ys : List DXFTag),
      entity_structure_validator_run dxftype st ts = Except.ok (stf, ys) →
      ys = ts := by
  intro ts
  induction ts with
  | nil =>
    intro st stf ys h
    simp [entity_structure_validator_run] at h
    exact h.2
  | cons t ts ih =>
    intro st stf ys h
    cases hstep : entity_structure_validator_step dxftype st t with
    | error e => simp [entity_structure_validator_run, hstep] at h
    | ok st2 =>
      cases hrun : entity_structure_validator_run dxftype st2 ts with
      | error e => simp [entity_structure_validator_run, hstep, hrun] at h
      | ok p =>
        obtain ⟨stf2, ys2⟩ := p
        simp [entity_structure_validator_run, hstep, hrun] at h
        rw [← h.2, ih st2 stf2 ys2 hrun]

/-- Appending tag lists composes validator runs. -/
theorem validator_run_append (dxftype : TagValue) :
    ∀ (xs : List DXFTag) (st st2 : VState) (rest : List DXFTag),
      entity_structure_validator_run dxftype st xs = Except.ok (st2, xs) →
      entity_structure_validator_run dxftype st (xs ++ rest) =
        (match entity_structure_validator_run dxftype st2 rest with
         | Except.error e => Except.error e
         | Except.ok (stf, ys) => Except.ok (stf, xs ++ ys)) := by
  intro xs
  induction xs with
  | nil =>
    intro st st2 rest h
    simp [entity_structure_validator_run] at h
    subst h
    cases hr : entity_structure_validator_run dxftype st rest with
    | error e => simp [hr]
    | ok p => cases p; simp [hr]
  | cons x xs ih =>
    intro st st2 rest h
    cases hstep : entity_structure_validator_step dxftype st x with
    | error e => simp [entity_structure_validator_run, hstep] at h
    | ok stx =>
      cases hrun : entity_structure_validator_run dxftype stx xs with
      | error e => simp [entity_structure_validator_run, hstep, hrun] at h
      | ok p =>
        obtain ⟨stf2, ys2⟩ := p
        have hys : ys2 = xs := validator_run_yields dxftype xs stx stf2 ys2 hrun
        subst hys
        simp [entity_structure_validator_run, hstep, hrun] at h
        subst h
        have hcomp := ih stx stf2 rest hrun
        cases hrest : entity_structure_validator_run dxftype stf2 rest with
        | error e =>
          rw [hrest] at hcomp
          simp [entity_structure_validator_run, hstep, hcomp, hrest]
        | ok p =>
          obtain ⟨stf, ys⟩ := p
          rw [hrest] at hcomp
          simp [entity_structure_validator_run, hstep, hcomp, hrest]

/-- An erroring validator run still errors after appending more tags. -/
theorem validator_run_append_error (dxftype : TagValue) :
    ∀ (xs : List DXFTag) (st : VState) (e : DXFErrorKind)
      (rest : List DXFTag),
      entity_structure_validator_run dxftype st xs = Except.error e →
      entity_structure_validator_run dxftype st (xs ++ rest) =
        Except.error e := by
  intro xs
  induction xs with
  | nil =>
    intro st e rest h
    simp [entity_structure_validator_run] at h
  | cons x xs ih =>
    intro st e rest h
    cases hstep : entity_structure_validator_step dxftype st x with
    | error e2 =>
      simp [entity_structure_validator_run, hstep] at h ⊢
      exact h
    | ok stx =>
      cases hrun : entity_structure_validator_run dxftype stx xs with
      | error e2 =>
        simp [entity_structure_validator_run, hstep, hrun] at h
        simp [entity_structure_validator_run, hstep,
          ih stx e2 rest hrun, h]
      | ok p =>
        cases p
        simp [entity_structure_validator_run, hstep, hrun] at h

/-- Stepping the validator from a state whose embedded object flag is set
only records the handle and keeps everything else. -/
theorem validator_step_embedded (dxftype : TagValue) (st : VState)
    (t : DXFTag) (hemb : st.embedded_object = true) :
    ∃ st2 : VState,
      entity_structure_validator_step dxftype st t = Except.ok st2 ∧
      st2.app_data = st.app_data ∧ st2.xdata = st.xdata ∧
      st2.xdata_list_level = st.xdata_list_level ∧
      st2.app_data_closing_tag = st.app_data_closing_tag ∧
      st2.embedded_object = true := by
  by_cases h5 : (t.code == 5 && st.handle == TagValue.str "???") = true
  · by_cases hm : is_embedded_object_marker t = true
    · refine ⟨{ st with handle := t.value, embedded_object := true },
        ?_, rfl, rfl, rfl, rfl, rfl⟩
      simp [entity_structure_validator_step, validator_track_state, h5, hm]
    · refine ⟨{ st with handle := t.value }, ?_, rfl, rfl, rfl, rfl, hemb⟩
      simp [entity_structure_validator_step, validator_track_state, h5, hm,
        hemb]
  · by_cases hm : is_embedded_object_marker t = true
    · refine ⟨{ st with embedded_object := true }, ?_, rfl, rfl, rfl, rfl,
        rfl⟩
      simp [entity_structure_validator_step, validator_track_state, h5, hm]
    · refine ⟨st, ?_, rfl, rfl, rfl, rfl, hemb⟩
      simp [entity_structure_validator_step, validator_track_state, h5, hm,
        hemb]

/-- Once the embedded object flag is set, every further tag is yielded
unchanged and the validation state other than the handle is untouched. -/
theorem validator_run_embedded (dxftype : TagValue) :
    ∀ (ts : List DXFTag) (st : VState), st.embedded_object = true →
      ∃ stf : VState,
        entity_structure_validator_run dxftype st ts = Except.ok (stf, ts) ∧
        stf.app_data = st.app_data ∧ stf.xdata = st.xdata ∧
        stf.xdata_list_level = st.xdata_list_level ∧
        stf.embedded_object = true := by
  intro ts
  induction ts with
  | nil =>
    intro st hemb
    exact ⟨st, by simp [entity_structure_validator_run], rfl, rfl, rfl, hemb⟩
  | cons t ts ih =>
    intro st hemb
    obtain ⟨st2, hstep, ha, hx, hl, hc, he⟩ :=
      validator_step_embedded dxftype st t hemb
    obtain ⟨stf, hr, ha2, hx2, hl2, he2⟩ := ih st2 he
    exact ⟨stf, by simp [entity_structure_validator_run, hstep, hr],
      by rw [ha2, ha], by rw [hx2, hx], by rw [hl2, hl], he2⟩

/-- Stepping the validator over an embedded object marker from a state that
has not seen one yet just sets the embedded object flag. -/
theorem validator_step_marker (dxftype : TagValue) (st : VState)
    (mtag : DXFTag) (hm : is_embedded_object_marker mtag = true) :
    entity_structure_validator_step dxftype st mtag =
      Except.ok { st with embedded_object := true } := by
  have hcode : mtag.code = EMBEDDED_OBJ_MARKER := by
    simp [is_embedded_object_marker] at hm
    exact hm.1
  have h5 : (mtag.code == 5 && st.handle == TagValue.str "???") = false := by
    simp [hcode, EMBEDDED_OBJ_MARKER]
  simp [entity_structure_validator_step, validator_track_state, h5, hm]

/-- C10: once entity_structure_validator encounters an embedded object
marker it performs no further validation: if the tags before the first
marker process without error, with all APP DATA sections closed and the
XDATA list level balanced at that point, then for an arbitrary trailing
tag sequence after the marker, validation succeeds and every tag of the
whole list, the trailing ones included, is yielded unchanged. -/
theorem embedded_object_stops_validation (t0 : DXFTag)
    (pre suffix : List DXFTag) (st : VState) (mtag : DXFTag)
    (hrun : entity_structure_validator_run t0.value initial_vstate (t0 :: pre)
      = Except.ok (st, t0 :: pre))
    (hemb : st.embedded_object = false)
    (happ : st.app_data = false)
    (hlvl : st.xdata_list_level = 0)
    (hm : is_embedded_object_marker mtag = true) :
    entity_structure_validator (t0 :: (pre ++ mtag :: suffix)) =
      Except.ok (t0 :: (pre ++ mtag :: suffix)) := by
  have hstep := validator_step_marker t0.value st mtag hm
  obtain ⟨stf, hrest, h1, h2, h3, h4⟩ :=
    validator_run_embedded t0.value suffix { st with embedded_object := true }
      (by simp)
  have hmid : entity_structure_validator_run t0.value st (mtag :: suffix) =
      Except.ok (stf, mtag :: suffix) := by
    simp [entity_structure_validator_run, hstep, hrest]
  have hall := validator_run_append t0.value (t0 :: pre) initial_vstate st
    (mtag :: suffix) hrun
  rw [hmid] at hall
  simp only [entity_structure_validator] at *
  have hdx : (((t0 :: (pre ++ mtag :: suffix)).headD
      { code := 0, value := TagValue.str "" }).value) = t0.value := by simp
  rw [hdx]
  have : (t0 :: pre) ++ (mtag :: suffix) = t0 :: (pre ++ mtag :: suffix) := by
    simp
  rw [this] at hall
  rw [hall]
  simp [h1, h3, happ, hlvl]

/-- Unfolding entity_structure_validator to its run and closing checks. -/
theorem entity_structure_validator_eq (tags : List DXFTag) :
    entity_structure_validator tags =
      (match entity_structure_validator_run
          ((tags.headD { code := 0, value := TagValue.str "" }).value)
          initial_vstate tags with
       | Except.error e => Except.error e
       | Except.ok (st, ys) =>
         if st.app_data then Except.error DXFErrorKind.appDataError
         else if st.xdata && st.xdata_list_level != 0 then
           Except.error DXFErrorKind.xdataError
         else Except.ok ys) := rfl

/-- The XDATA section block either raises DXFXDataError or keeps every
field except the list level. -/
theorem xdata_section_check_cases (st : VState) (t : DXFTag) :
    (∃ e, xdata_section_check st t = Except.error e ∧
      e = DXFErrorKind.xdataError) ∨
    (∃ r, xdata_section_check st t = Except.ok r ∧
      r.app_data = st.app_data ∧
      r.app_data_closing_tag = st.app_data_closing_tag ∧
      r.xdata = st.xdata ∧ r.embedded_object = st.embedded_object ∧
      r.handle = st.handle) := by
  unfold xdata_section_check
  repeat' split
  all_goals
    first
      | exact Or.inl ⟨_, rfl, rfl⟩
      | exact Or.inr ⟨_, rfl, rfl, rfl, rfl, rfl, rfl⟩

/-- In an XRECORD entity, a 102 tag whose string value neither opens nor
closes an APP DATA section passes the APP DATA check without effect; so
does every tag whose code is not 102. -/
theorem app_data_check_xrecord (dxftype : TagValue) (st : VState)
    (t : DXFTag) (hdx : dxftype = TagValue.str "XRECORD")
    (ht : t.code = APP_DATA_MARKER → ∃ s, t.value = TagValue.str s ∧
      startswith_lbrace s = false ∧ s ≠ rbraceStr)
    (hct : st.app_data_closing_tag = rbraceStr) :
    app_data_check dxftype st t = Except.ok st := by
  unfold app_data_check
  by_cases hc : (t.code == APP_DATA_MARKER) = true
  · obtain ⟨s, hv, hs1, hs2⟩ := ht (by simpa using hc)
    rw [hv]
    simp [hc, hs1, hs2, hct, hdx]
  · simp [hc]

/-- With no APP DATA section open, the XDATA start block never raises and
keeps every field except the xdata flag. -/
theorem xdata_start_check_ok (st : VState) (t : DXFTag)
    (happ : st.app_data = false) :
    ∃ r, xdata_start_check st t = Except.ok r ∧
      r.app_data = false ∧
      r.app_data_closing_tag = st.app_data_closing_tag ∧
      r.xdata_list_level = st.xdata_list_level ∧
      r.embedded_object = st.embedded_object ∧ r.handle = st.handle := by
  unfold xdata_start_check
  split
  · refine ⟨{ st with xdata := true }, ?_, happ, rfl, rfl, rfl, rfl⟩
    simp [happ]
  · exact ⟨st, rfl, happ, rfl, rfl, rfl, rfl⟩

/-- Recording the handle and the embedded object flag does not change the
APP DATA fields. -/
theorem validator_track_state_fields (st : VState) (t : DXFTag) :
    (validator_track_state st t).app_data = st.app_data ∧
    (validator_track_state st t).app_data_closing_tag =
      st.app_data_closing_tag := by
  unfold validator_track_state
  split <;> split <;> simp

/-- One validator step of an XRECORD entity over a tag whose 102 value (if
any) is benign never raises DXFAppDataError, and keeps the APP DATA state
closed. -/
theorem xrecord_step_no_appdata (dxftype : TagValue) (st : VState)
    (t : DXFTag) (hdx : dxftype = TagValue.str "XRECORD")
    (ht : t.code = APP_DATA_MARKER → ∃ s, t.value = TagValue.str s ∧
      startswith_lbrace s = false ∧ s ≠ rbraceStr)
    (happ : st.app_data = false) (hct : st.app_data_closing_tag = rbraceStr) :
    (∀ e, entity_structure_validator_step dxftype st t = Except.error e →
      e = DXFErrorKind.xdataError) ∧
    (∀ st2, entity_structure_validator_step dxftype st t = Except.ok st2 →
      st2.app_data = false ∧ st2.app_data_closing_tag = rbraceStr) := by
  obtain ⟨hta, htc⟩ := validator_track_state_fields st t
  simp only [entity_structure_validator_step]
  by_cases he : (validator_track_state st t).embedded_object = true
  · rw [if_pos he]
    refine ⟨fun e h => by simp at h, fun st2 h => ?_⟩
    have hst2 : st2 = validator_track_state st t := by simpa using h.symm
    rw [hst2, hta, htc]
    exact ⟨happ, hct⟩
  · rw [if_neg he]
    rcases xdata_section_check_cases (validator_track_state st t) t with
      ⟨e, hxe, hex⟩ | ⟨r, hr, f1, f2, f3, f4, f5⟩
    · rw [hxe, hex]
      refine ⟨fun e2 h => ?_, fun st2 h => ?_⟩
      · simp at h
        exact h.symm
      · simp at h
    · have hr102 : app_data_check dxftype r t = Except.ok r :=
        app_data_check_xrecord dxftype r t hdx ht (by rw [f2, htc, hct])
      obtain ⟨r2, hr2, hr2a, hr2c, _, _, _⟩ :=
        xdata_start_check_ok r t (by rw [f1, hta, happ])
      refine ⟨fun e2 h => ?_, fun st2 h => ?_⟩
      · rw [hr] at h
        simp [hr102, hr2] at h
      · rw [hr] at h
        simp [hr102, hr2] at h
        rw [← h, hr2c, f2, htc, hct]
        exact ⟨hr2a, rfl⟩

/-- The validator run of an XRECORD entity whose 102 values are all benign
never raises DXFAppDataError, and ends with the APP DATA state closed. -/
theorem xrecord_run_no_appdata (dxftype : TagValue)
    (hdx : dxftype = TagValue.str "XRECORD") :
    ∀ (ts : List DXFTag) (st : VState),
      (∀ t ∈ ts, t.code = APP_DATA_MARKER → ∃ s, t.value = TagValue.str s ∧
        startswith_lbrace s = false ∧ s ≠ rbraceStr) →
      st.app_data = false → st.app_data_closing_tag = rbraceStr →
      (∀ e, entity_structure_validator_run dxftype st ts = Except.error e →
        e = DXFErrorKind.xdataError) ∧
      (∀ stf ys,
        entity_structure_validator_run dxftype st ts = Except.ok (stf, ys) →
        stf.app_data = false) := by
  intro ts
  induction ts with
  | nil =>
    intro st hbenign happ hct
    refine ⟨fun e he => by simp [entity_structure_validator_run] at he,
      fun stf ys h => ?_⟩
    simp [entity_structure_validator_run] at h
    rw [← h.1, happ]
  | cons t ts ih =>
    intro st hbenign happ hct
    obtain ⟨hstep_err, hstep_ok⟩ := xrecord_step_no_appdata dxftype st t hdx
      (hbenign t (by simp)) happ hct
    cases hstep : entity_structure_validator_step dxftype st t with
    | error e =>
      refine ⟨fun e2 he2 => ?_, fun stf ys h => ?_⟩
      · simp [entity_structure_validator_run, hstep] at he2
        rw [← he2]
        exact hstep_err e hstep
      · simp [entity_structure_validator_run, hstep] at h
    | ok st2 =>
      obtain ⟨h2a, h2c⟩ := hstep_ok st2 hstep
      obtain ⟨ih_err, ih_ok⟩ := ih st2
        (fun u hu => hbenign u (by simp [hu])) h2a h2c
      cases hrun : entity_structure_validator_run dxftype st2 ts with
      | error e =>
        refine ⟨fun e2 he2 => ?_, fun stf ys h => ?_⟩
        · simp [entity_structure_validator_run, hstep, hrun] at he2
          rw [← he2]
          exact ih_err e hrun
        · simp [entity_structure_validator_run, hstep, hrun] at h
      | ok p =>
        obtain ⟨stf2, ys2⟩ := p
        refine ⟨fun e2 he2 => ?_, fun stf ys h => ?_⟩
        · simp [entity_structure_validator_run, hstep, hrun] at he2
        · simp [entity_structure_validator_run, hstep, hrun] at h
          rw [← h.1]
          exact ih_ok stf2 ys2 hrun

/-- C5 counterexample: an XRECORD whose 102 tag opens an APP DATA section
that is never closed makes entity_structure_validator raise
DXFAppDataError, contradicting the claim that XRECORD entities can never
raise it. -/
theorem xrecord_appdata_error_example :
    entity_structure_validator
      [{ code := 0, value := TagValue.str "XRECORD" },
       { code := 102, value := TagValue.str "\x7bACAD" }] =
      Except.error DXFErrorKind.appDataError := by rfl

/-- C5 (amended): an XRECORD entity is exempt only from the check that a
102 value must be an APP DATA opener or closer: if no 102 tag of the list
carries a value that starts with an opening brace or equals the closing
brace, the validator never raises DXFAppDataError, whatever those 102
values are.  (Brace valued 102 tags are still validated, see the
counterexample.) -/
theorem xrecord_no_appdata_error (tags : List DXFTag)
    (hdx : (tags.headD { code := 0, value := TagValue.str "" }).value =
      TagValue.str "XRECORD")
    (hbenign : ∀ t ∈ tags, t.code = APP_DATA_MARKER →
      ∃ s, t.value = TagValue.str s ∧ startswith_lbrace s = false ∧
        s ≠ rbraceStr) :
    entity_structure_validator tags ≠
      Except.error DXFErrorKind.appDataError := by
  intro hcontra
  rw [entity_structure_validator_eq, hdx] at hcontra
  obtain ⟨herr, hok⟩ := xrecord_run_no_appdata (TagValue.str "XRECORD") rfl
    tags initial_vstate hbenign rfl rfl
  cases hrun : entity_structure_validator_run (TagValue.str "XRECORD")
      initial_vstate tags with
  | error e =>
    rw [hrun] at hcontra
    have := herr e hrun
    simp [this] at hcontra
  | ok p =>
    obtain ⟨stf, ys⟩ := p
    rw [hrun] at hcontra
    have happf : stf.app_data = false := hok stf ys hrun
    simp [happf] at hcontra
    split at hcontra <;> simp_all

/-- C5 witness: the amended theorem applied to a concrete XRECORD with a
non brace 102 value. -/
theorem xrecord_no_appdata_error_witness :
    entity_structure_validator
      [{ code := 0, value := TagValue.str "XRECORD" },
       { code := 102, value := TagValue.str "SORTENTSTABLE" }] ≠
      Except.error DXFErrorKind.appDataError :=
  xrecord_no_appdata_error
    [{ code := 0, value := TagValue.str "XRECORD" },
     { code := 102, value := TagValue.str "SORTENTSTABLE" }]
    (by decide)
    (by
      intro t ht hc
      simp at ht
      rcases ht with h | h
      · rw [h] at hc
        simp [APP_DATA_MARKER] at hc
      · refine ⟨"SORTENTSTABLE", ?_, by decide, by decide⟩
        rw [h])

/-- Tracking handle and embedded object over a non marker tag maps a spec
shaped state to a spec shaped state, only the handle moving. -/
theorem track_mkVState (h : TagValue) (a : Option String) (x : Bool)
    (l : Int) (t : DXFTag) (hm : is_embedded_object_marker t = false) :
    validator_track_state (mkVState h a x l) t =
      mkVState (if t.code == 5 && h == TagValue.str "???" then t.value else h)
        a x l := by
  unfold validator_track_state mkVState
  simp [hm]
  split <;> simp

/-- Stepping once and then running the rest preserves success shaped
results (proof infrastructure for the spec validity bridge). -/
theorem run_cons_exists (dxftype : TagValue) (t : DXFTag)
    (ts : List DXFTag) (st st2 : VState)
    (hstep : entity_structure_validator_step dxftype st t = Except.ok st2)
    (hrest : ∃ stf : VState,
      entity_structure_validator_run dxftype st2 ts = Except.ok (stf, ts) ∧
      stf.app_data = false ∧ stf.xdata_list_level = 0) :
    ∃ stf : VState,
      entity_structure_validator_run dxftype st (t :: ts) =
        Except.ok (stf, t :: ts) ∧
      stf.app_data = false ∧ stf.xdata_list_level = 0 := by
  obtain ⟨stf, hr, hp⟩ := hrest
  exact ⟨stf, by simp [entity_structure_validator_run, hstep, hr], hp⟩

/-- A spec valid tag list processes through the validator loop without
error, yields itself, and ends with no APP DATA section open and the XDATA
list level balanced. -/
theorem SpecValidFrom_run (dxftype : TagValue) :
    ∀ (ts : List DXFTag) (a : Option String) (x : Bool) (l : Int)
      (h : TagValue),
      SpecValidFrom (dxftype == TagValue.str "XRECORD") a x l ts = true →
      ∃ stf : VState,
        entity_structure_validator_run dxftype (mkVState h a x l) ts =
          Except.ok (stf, ts) ∧
        stf.app_data = false ∧ stf.xdata_list_level = 0 := by
  intro ts
  induction ts with
  | nil =>
    intro a x l h hv
    simp [SpecValidFrom] at hv
    refine ⟨mkVState h a x l, by simp [entity_structure_validator_run],
      ?_, ?_⟩
    · simp [mkVState, hv.1]
    · simp [mkVState, hv.2]
  | cons t ts ih =>
    intro a x l h hv
    by_cases hmt : is_embedded_object_marker t = true
    · rw [SpecValidFrom] at hv
      simp [hmt] at hv
    · simp only [Bool.not_eq_true] at hmt
      rw [SpecValidFrom, hmt] at hv
      rw [if_neg (show ¬(false = true) by simp)] at hv
      have htrack := track_mkVState h a x l t hmt
      set H := (if t.code == 5 && h == TagValue.str "???" then t.value
        else h) with hH
      by_cases hx : x = true
      · subst hx
        rw [if_pos rfl] at hv
        by_cases hlt : t.code < 1000
        · rw [if_pos hlt] at hv
          simp at hv
        · rw [if_neg hlt] at hv
          have hn102 : (t.code == APP_DATA_MARKER) = false := by
            simp [APP_DATA_MARKER]
            omega
          by_cases h1002 : (t.code == 1002) = true
          · rw [if_pos h1002] at hv
            cases hval : t.value with
            | num q => simp only [hval] at hv; simp at hv
            | str v =>
              simp only [hval] at hv
              by_cases hlb : (v == lbraceStr) = true
              · rw [if_pos hlb] at hv
                refine run_cons_exists dxftype t ts _
                  (mkVState H a true (l + 1)) ?_ (ih a true (l + 1) H hv)
                simp only [entity_structure_validator_step, htrack]
                simp [mkVState, xdata_section_check, app_data_check,
                  xdata_start_check, hlt, h1002, hval, hlb, hn102]
              · rw [if_neg hlb] at hv
                by_cases hrb : (v == rbraceStr) = true
                · rw [if_pos hrb] at hv
                  simp only [Bool.and_eq_true, decide_eq_true_eq] at hv
                  obtain ⟨hpos, hv⟩ := hv
                  refine run_cons_exists dxftype t ts _
                    (mkVState H a true (l - 1)) ?_ (ih a true (l - 1) H hv)
                  simp only [entity_structure_validator_step, htrack]
                  simp [mkVState, xdata_section_check, app_data_check,
                    xdata_start_check, hlt, h1002, hval, hlb, hrb, hn102,
                    show ¬(l - 1 < 0) by omega]
                · rw [if_neg hrb] at hv
                  simp at hv
          · rw [if_neg h1002] at hv
            refine run_cons_exists dxftype t ts _
              (mkVState H a true l) ?_ (ih a true l H hv)
            simp only [entity_structure_validator_step, htrack]
            simp [mkVState, xdata_section_check, app_data_check,
              xdata_start_check, hlt, h1002, hn102]
      · simp only [Bool.not_eq_true] at hx
        subst hx
        rw [if_neg (show ¬(false = true) by simp)] at hv
        by_cases h102 : (t.code == APP_DATA_MARKER) = true
        · rw [if_pos h102] at hv
          have hn1001 : (t.code == XDATA_MARKER) = false := by
            simp [APP_DATA_MARKER] at h102
            simp [XDATA_MARKER, h102]
          cases hval : t.value with
          | num q =>
            simp only [hval] at hv
            simp only [Bool.and_eq_true] at hv
            obtain ⟨hxr, hv⟩ := hv
            have hdx : dxftype = TagValue.str "XRECORD" := by simpa using hxr
            refine run_cons_exists dxftype t ts _
              (mkVState H a false l) ?_ (ih a false l H hv)
            simp only [entity_structure_validator_step, htrack]
            simp [mkVState, xdata_section_check, app_data_check,
              xdata_start_check, h102, hval, hdx, hn1001]
          | str v =>
            simp only [hval] at hv
            by_cases hlb : startswith_lbrace v = true
            · rw [if_pos hlb] at hv
              cases ha : a with
              | some c => simp only [ha] at hv; simp at hv
              | none =>
                simp only [ha] at hv htrack ⊢
                refine run_cons_exists dxftype t ts _
                  (mkVState H (some (v.drop 1 ++ rbraceStr)) false l) ?_
                  (ih (some (v.drop 1 ++ rbraceStr)) false l H hv)
                simp only [entity_structure_validator_step, htrack]
                simp [mkVState, xdata_section_check, app_data_check,
                  xdata_start_check, h102, hval, hlb, hn1001]
            · rw [if_neg hlb] at hv
              simp only [Bool.not_eq_true] at hlb
              cases ha : a with
              | some c =>
                simp only [ha] at hv htrack ⊢
                by_cases hcl : (v == rbraceStr || v == c) = true
                · rw [if_pos hcl] at hv
                  refine run_cons_exists dxftype t ts _
                    (mkVState H none false l) ?_ (ih none false l H hv)
                  simp only [entity_structure_validator_step, htrack]
                  simp [mkVState, xdata_section_check, app_data_check,
                    xdata_start_check, h102, hval, hlb, hcl, hn1001]
                · rw [if_neg hcl] at hv
                  simp only [Bool.and_eq_true] at hv
                  obtain ⟨hxr, hv⟩ := hv
                  have hdx : dxftype = TagValue.str "XRECORD" := by
                    simpa using hxr
                  refine run_cons_exists dxftype t ts _
                    (mkVState H (some c) false l) ?_
                    (ih (some c) false l H hv)
                  simp only [entity_structure_validator_step, htrack]
                  simp [mkVState, xdata_section_check, app_data_check,
                    xdata_start_check, h102, hval, hlb, hcl, hdx, hn1001]
              | none =>
                simp only [ha] at hv htrack ⊢
                by_cases hrb : (v == rbraceStr) = true
                · rw [if_pos hrb] at hv
                  simp at hv
                · rw [if_neg hrb] at hv
                  simp only [Bool.and_eq_true] at hv
                  obtain ⟨hxr, hv⟩ := hv
                  have hdx : dxftype = TagValue.str "XRECORD" := by
                    simpa using hxr
                  refine run_cons_exists dxftype t ts _
                    (mkVState H none false l) ?_ (ih none false l H hv)
                  simp only [entity_structure_validator_step, htrack]
                  simp [mkVState, xdata_section_check, app_data_check,
                    xdata_start_check, h102, hval, hlb, hrb, hdx, hn1001]
        · rw [if_neg h102] at hv
          by_cases h1001 : (t.code == XDATA_MARKER) = true
          · rw [if_pos h1001] at hv
            simp only [Bool.and_eq_true] at hv
            obtain ⟨hnone, hv⟩ := hv
            have ha : a = none := by
              cases a with
              | none => rfl
              | some c => simp at hnone
            simp only [ha] at hv htrack ⊢
            refine run_cons_exists dxftype t ts _
              (mkVState H none true l) ?_ (ih none true l H hv)
            simp only [entity_structure_validator_step, htrack]
            simp [mkVState, xdata_section_check, app_data_check,
              xdata_start_check, h102, h1001]
          · rw [if_neg h1001] at hv
            refine run_cons_exists dxftype t ts _
              (mkVState H a false l) ?_ (ih a false l H hv)
            simp only [entity_structure_validator_step, htrack]
            simp [mkVState, xdata_section_check, app_data_check,
              xdata_start_check, h102, h1001]

/-- A tag with a simple group code steps through the validator outside
XDATA without any effect but the handle recording. -/
theorem simple_step (dxftype : TagValue) (h : TagValue) (a : Option String)
    (l : Int) (t : DXFTag) (hs : simpleCode t.code = true) :
    entity_structure_validator_step dxftype (mkVState h a false l) t =
      Except.ok (mkVState
        (if t.code == 5 && h == TagValue.str "???" then t.value else h)
        a false l) := by
  simp only [simpleCode, APP_DATA_MARKER, XDATA_MARKER, EMBEDDED_OBJ_MARKER,
    Bool.not_eq_eq_eq_not, Bool.not_true, Bool.or_eq_false_iff,
    beq_eq_false_iff_ne, ne_eq] at hs
  obtain ⟨⟨⟨h102, h1001⟩, h1002⟩, h101⟩ := hs
  have hm : is_embedded_object_marker t = false := by
    simp [is_embedded_object_marker, EMBEDDED_OBJ_MARKER, h101]
  have htrack := track_mkVState h a false l t hm
  simp only [entity_structure_validator_step, htrack]
  simp [mkVState, xdata_section_check, app_data_check, xdata_start_check,
    APP_DATA_MARKER, XDATA_MARKER, h102, h1001]

/-- A run over simple coded tags outside XDATA only records the handle. -/
theorem simple_run (dxftype : TagValue) :
    ∀ (ts : List DXFTag) (h : TagValue) (a : Option String) (l : Int),
      (∀ t ∈ ts, simpleCode t.code = true) →
      ∃ h2, entity_structure_validator_run dxftype (mkVState h a false l) ts
        = Except.ok (mkVState h2 a false l, ts) := by
  intro ts
  induction ts with
  | nil =>
    intro h a l _
    exact ⟨h, by simp [entity_structure_validator_run]⟩
  | cons t ts ih =>
    intro h a l hall
    have hstep := simple_step dxftype h a l t (hall t (by simp))
    obtain ⟨h2, hr⟩ :=
      ih (if t.code == 5 && h == TagValue.str "???" then t.value else h) a l
        (fun u hu => hall u (by simp [hu]))
    exact ⟨h2, by simp only [entity_structure_validator_run, hstep, hr]⟩

/-- A tag with code at least 1000 and not 1002 steps through an open XDATA
section without any effect. -/
theorem xdata_simple_step (dxftype : TagValue) (h : TagValue)
    (a : Option String) (l : Int) (t : DXFTag)
    (hs : xdataSimpleCode t.code = true) :
    entity_structure_validator_step dxftype (mkVState h a true l) t =
      Except.ok (mkVState h a true l) := by
  simp only [xdataSimpleCode, Bool.and_eq_true, decide_eq_true_eq,
    Bool.not_eq_eq_eq_not, Bool.not_true, beq_eq_false_iff_ne, ne_eq] at hs
  obtain ⟨hge, h1002⟩ := hs
  have hm : is_embedded_object_marker t = false := by
    simp [is_embedded_object_marker, EMBEDDED_OBJ_MARKER]
    omega
  have htrack := track_mkVState h a true l t hm
  have h5 : (t.code == 5 && h == TagValue.str "???") = false := by
    have : t.code ≠ 5 := by omega
    simp [this]
  rw [h5] at htrack
  simp only [entity_structure_validator_step, htrack, if_neg]
  simp [mkVState, xdata_section_check, app_data_check, xdata_start_check,
    APP_DATA_MARKER, XDATA_MARKER, h1002,
    show ¬(t.code < 1000) by omega, show t.code ≠ 102 by omega]

/-- A run inside an open XDATA section over codes at least 1000 and not
1002 leaves the state untouched. -/
theorem xdata_simple_run (dxftype : TagValue) :
    ∀ (ts : List DXFTag) (h : TagValue) (a : Option String) (l : Int),
      (∀ t ∈ ts, xdataSimpleCode t.code = true) →
      entity_structure_validator_run dxftype (mkVState h a true l) ts
        = Except.ok (mkVState h a true l, ts) := by
  intro ts
  induction ts with
  | nil =>
    intro h a l _
    simp [entity_structure_validator_run]
  | cons t ts ih =>
    intro h a l hall
    have hstep := xdata_simple_step dxftype h a l t (hall t (by simp))
    have hr := ih h a l (fun u hu => hall u (by simp [hu]))
    simp [entity_structure_validator_run, hstep, hr]

/-- A 102 tag whose value starts with a brace opens an APP DATA section. -/
theorem opener_step (dxftype : TagValue) (h : TagValue) (l : Int)
    (v : String) (hlb : startswith_lbrace v = true) :
    entity_structure_validator_step dxftype (mkVState h none false l)
      { code := 102, value := TagValue.str v } =
      Except.ok (mkVState h (some (v.drop 1 ++ rbraceStr)) false l) := by
  have hm : is_embedded_object_marker
      { code := 102, value := TagValue.str v } = false := by
    simp [is_embedded_object_marker, EMBEDDED_OBJ_MARKER]
  have htrack := track_mkVState h none false l
    { code := 102, value := TagValue.str v } hm
  simp only [entity_structure_validator_step, htrack]
  simp [mkVState, xdata_section_check, app_data_check, xdata_start_check,
    APP_DATA_MARKER, XDATA_MARKER, hlb]

/-- A closing 102 tag with no APP DATA section open raises
DXFAppDataError. -/
theorem closer_step_error (dxftype : TagValue) (h : TagValue) (l : Int) :
    entity_structure_validator_step dxftype (mkVState h none false l)
      { code := 102, value := TagValue.str rbraceStr } =
      Except.error DXFErrorKind.appDataError := by
  have hm : is_embedded_object_marker
      { code := 102, value := TagValue.str rbraceStr } = false := by
    simp [is_embedded_object_marker, EMBEDDED_OBJ_MARKER]
  have htrack := track_mkVState h none false l
    { code := 102, value := TagValue.str rbraceStr } hm
  simp only [entity_structure_validator_step, htrack]
  simp [mkVState, xdata_section_check, app_data_check, xdata_start_check,
    APP_DATA_MARKER, XDATA_MARKER,
    show startswith_lbrace rbraceStr = false by decide]

/-- The first 1001 tag starts the XDATA section. -/
theorem xdata_marker_step (dxftype : TagValue) (h : TagValue) (w : TagValue)
    (l : Int) :
    entity_structure_validator_step dxftype (mkVState h none false l)
      { code := 1001, value := w } =
      Except.ok (mkVState h none true l) := by
  have hm : is_embedded_object_marker { code := 1001, value := w } = false := by
    simp [is_embedded_object_marker, EMBEDDED_OBJ_MARKER]
  have htrack := track_mkVState h none false l { code := 1001, value := w } hm
  simp only [entity_structure_validator_step, htrack]
  simp [mkVState, xdata_section_check, app_data_check, xdata_start_check,
    APP_DATA_MARKER, XDATA_MARKER]

/-- An opening 1002 list brace inside XDATA raises the list level. -/
theorem brace_open_step (dxftype : TagValue) (h : TagValue)
    (a : Option String) (l : Int) :
    entity_structure_validator_step dxftype (mkVState h a true l)
      { code := 1002, value := TagValue.str lbraceStr } =
      Except.ok (mkVState h a true (l + 1)) := by
  have hm : is_embedded_object_marker
      { code := 1002, value := TagValue.str lbraceStr } = false := by
    simp [is_embedded_object_marker, EMBEDDED_OBJ_MARKER]
  have htrack := track_mkVState h a true l
    { code := 1002, value := TagValue.str lbraceStr } hm
  simp only [entity_structure_validator_step, htrack]
  simp [mkVState, xdata_section_check, app_data_check, xdata_start_check,
    APP_DATA_MARKER, XDATA_MARKER]

/-- A closing 1002 list brace at level zero raises DXFXDataError. -/
theorem brace_close_step_error (dxftype : TagValue) (h : TagValue)
    (a : Option String) :
    entity_structure_validator_step dxftype (mkVState h a true 0)
      { code := 1002, value := TagValue.str rbraceStr } =
      Except.error DXFErrorKind.xdataError := by
  have hm : is_embedded_object_marker
      { code := 1002, value := TagValue.str rbraceStr } = false := by
    simp [is_embedded_object_marker, EMBEDDED_OBJ_MARKER]
  have htrack := track_mkVState h a true 0
    { code := 1002, value := TagValue.str rbraceStr } hm
  simp only [entity_structure_validator_step, htrack]
  simp [mkVState, xdata_section_check, app_data_check, xdata_start_check,
    APP_DATA_MARKER, XDATA_MARKER,
    show (rbraceStr == lbraceStr) = false by decide]


/-- C2 counterexample: a tag list with no APP DATA marker and no XDATA
list brace at all (so APP DATA sections and XDATA braces are trivially
balanced) on which entity_structure_validator still fails, because a group
code below 1000 follows the XDATA start tag. -/
theorem balanced_markers_do_not_imply_valid :
    (∀ t ∈ ([{ code := 0, value := TagValue.str "LINE" },
             { code := 1001, value := TagValue.str "TEST" },
             { code := 40, value := TagValue.num 0 }] : List DXFTag),
       t.code ≠ APP_DATA_MARKER ∧ t.code ≠ 1002) ∧
    entity_structure_validator
      [{ code := 0, value := TagValue.str "LINE" },
       { code := 1001, value := TagValue.str "TEST" },
       { code := 40, value := TagValue.num 0 }] =
      Except.error DXFErrorKind.xdataError :=
  ⟨by decide, by rfl⟩

/-- C2 (amended): entity_structure_validator is a pure pass through on
grammatically valid entity tag lists, and fails with the matching error
kind on a single unbalanced marker.  In detail: (1) every spec valid tag
list (proper, non nested, closed APP DATA sections; after the XDATA start
only codes at least 1000, 1002 values braces with balanced, never negative
nesting; no embedded object marker) is re-yielded unchanged; (2) adding a
single unmatched APP DATA opener to otherwise plain tags raises
DXFAppDataError; (3) so does a single unmatched APP DATA closer; (4) a
single unmatched opening XDATA list brace raises DXFXDataError; (5) so
does a single unmatched closing XDATA list brace. -/
theorem validator_passthrough_and_balance :
    (∀ tags : List DXFTag, SpecValid tags = true →
       entity_structure_validator tags = Except.ok tags) ∧
    (∀ (pre post : List DXFTag) (v : String),
       (∀ t ∈ pre, simpleCode t.code = true) →
       (∀ t ∈ post, simpleCode t.code = true) →
       startswith_lbrace v = true →
       entity_structure_validator
         (pre ++ { code := 102, value := TagValue.str v } :: post) =
         Except.error DXFErrorKind.appDataError) ∧
    (∀ (pre post : List DXFTag),
       (∀ t ∈ pre, simpleCode t.code = true) →
       entity_structure_validator
         (pre ++ { code := 102, value := TagValue.str rbraceStr } :: post) =
         Except.error DXFErrorKind.appDataError) ∧
    (∀ (pre mid post : List DXFTag) (w : TagValue),
       (∀ t ∈ pre, simpleCode t.code = true) →
       (∀ t ∈ mid, xdataSimpleCode t.code = true) →
       (∀ t ∈ post, xdataSimpleCode t.code = true) →
       entity_structure_validator
         (pre ++ { code := 1001, value := w } ::
          (mid ++ { code := 1002, value := TagValue.str lbraceStr } :: post))
         = Except.error DXFErrorKind.xdataError) ∧
    (∀ (pre mid post : List DXFTag) (w : TagValue),
       (∀ t ∈ pre, simpleCode t.code = true) →
       (∀ t ∈ mid, xdataSimpleCode t.code = true) →
       entity_structure_validator
         (pre ++ { code := 1001, value := w } ::
          (mid ++ { code := 1002, value := TagValue.str rbraceStr } :: post))
         = Except.error DXFErrorKind.xdataError) := by
  have hini : initial_vstate = mkVState (TagValue.str "???") none false 0 :=
    rfl
  refine ⟨?_, ?_, ?_, ?_, ?_⟩
  · -- (1) spec valid lists pass through unchanged
    intro tags hv
    rw [SpecValid] at hv
    rw [entity_structure_validator_eq, hini]
    obtain ⟨stf, hr, ha, hl⟩ := SpecValidFrom_run
      ((tags.headD { code := 0, value := TagValue.str "" }).value) tags
      none false 0 (TagValue.str "???") hv
    rw [hr]
    simp [ha, hl]
  · -- (2) one unmatched opener
    intro pre post v hpre hpost hlb
    set d := ((pre ++ { code := 102, value := TagValue.str v } :: post).headD
      { code := 0, value := TagValue.str "" }).value with hd
    obtain ⟨h2, hpre_run⟩ := simple_run d pre (TagValue.str "???") none 0 hpre
    have hstep := opener_step d h2 0 v hlb
    obtain ⟨h3, hpost_run⟩ :=
      simple_run d post h2 (some (v.drop 1 ++ rbraceStr)) 0 hpost
    have hcons : entity_structure_validator_run d (mkVState h2 none false 0)
        ({ code := 102, value := TagValue.str v } :: post) =
        Except.ok (mkVState h3 (some (v.drop 1 ++ rbraceStr)) false 0,
          { code := 102, value := TagValue.str v } :: post) := by
      simp only [entity_structure_validator_run, hstep, hpost_run]
    have hall := validator_run_append d pre
      (mkVState (TagValue.str "???") none false 0) (mkVState h2 none false 0)
      ({ code := 102, value := TagValue.str v } :: post) hpre_run
    rw [hcons] at hall
    rw [entity_structure_validator_eq, hini, hall]
    simp [mkVState]
  · -- (3) one unmatched closer
    intro pre post hpre
    set d := ((pre ++ { code := 102, value := TagValue.str rbraceStr } ::
      post).headD { code := 0, value := TagValue.str "" }).value with hd
    obtain ⟨h2, hpre_run⟩ := simple_run d pre (TagValue.str "???") none 0 hpre
    have hstep := closer_step_error d h2 0
    have hcons : entity_structure_validator_run d (mkVState h2 none false 0)
        ({ code := 102, value := TagValue.str rbraceStr } :: post) =
        Except.error DXFErrorKind.appDataError := by
      simp only [entity_structure_validator_run, hstep]
    have hall := validator_run_append d pre
      (mkVState (TagValue.str "???") none false 0) (mkVState h2 none false 0)
      ({ code := 102, value := TagValue.str rbraceStr } :: post) hpre_run
    rw [hcons] at hall
    rw [entity_structure_validator_eq, hini, hall]
  · -- (4) one unmatched opening list brace
    intro pre mid post w hpre hmid hpost
    set d := ((pre ++ { code := 1001, value := w } ::
      (mid ++ { code := 1002, value := TagValue.str lbraceStr } ::
        post)).headD { code := 0, value := TagValue.str "" }).value with hd
    obtain ⟨h2, hpre_run⟩ := simple_run d pre (TagValue.str "???") none 0 hpre
    have hstep1001 := xdata_marker_step d h2 w 0
    have hmid_run := xdata_simple_run d mid h2 none 0 hmid
    have hstepbrace := brace_open_step d h2 none 0
    have hpost_run := xdata_simple_run d post h2 none (0 + 1) hpost
    have hbrace_cons : entity_structure_validator_run d
        (mkVState h2 none true 0)
        ({ code := 1002, value := TagValue.str lbraceStr } :: post) =
        Except.ok (mkVState h2 none true (0 + 1),
          { code := 1002, value := TagValue.str lbraceStr } :: post) := by
      simp only [entity_structure_validator_run, hstepbrace, hpost_run]
    have hmid_all := validator_run_append d mid (mkVState h2 none true 0)
      (mkVState h2 none true 0)
      ({ code := 1002, value := TagValue.str lbraceStr } :: post) hmid_run
    rw [hbrace_cons] at hmid_all
    have hxd_cons : entity_structure_validator_run d (mkVState h2 none false 0)
        ({ code := 1001, value := w } ::
          (mid ++ { code := 1002, value := TagValue.str lbraceStr } :: post))
        = Except.ok (mkVState h2 none true (0 + 1),
            { code := 1001, value := w } ::
              (mid ++ { code := 1002, value := TagValue.str lbraceStr } ::
                post)) := by
      simp only [entity_structure_validator_run, hstep1001, hmid_all]
    have hall := validator_run_append d pre
      (mkVState (TagValue.str "???") none false 0) (mkVState h2 none false 0)
      ({ code := 1001, value := w } ::
        (mid ++ { code := 1002, value := TagValue.str lbraceStr } :: post))
      hpre_run
    rw [hxd_cons] at hall
    rw [entity_structure_validator_eq, hini, hall]
    simp [mkVState]
  · -- (5) one unmatched closing list brace
    intro pre mid post w hpre hmid
    set d := ((pre ++ { code := 1001, value := w } ::
      (mid ++ { code := 1002, value := TagValue.str rbraceStr } ::
        post)).headD { code := 0, value := TagValue.str "" }).value with hd
    obtain ⟨h2, hpre_run⟩ := simple_run d pre (TagValue.str "???") none 0 hpre
    have hstep1001 := xdata_marker_step d h2 w 0
    have hmid_run := xdata_simple_run d mid h2 none 0 hmid
    have hstepbrace := brace_close_step_error d h2 none
    have hbrace_cons : entity_structure_validator_run d
        (mkVState h2 none true 0)
        ({ code := 1002, value := TagValue.str rbraceStr } :: post) =
        Except.error DXFErrorKind.xdataError := by
      simp only [entity_structure_validator_run, hstepbrace]
    have hmid_all := validator_run_append d mid (mkVState h2 none true 0)
      (mkVState h2 none true 0)
      ({ code := 1002, value := TagValue.str rbraceStr } :: post) hmid_run
    rw [hbrace_cons] at hmid_all
    have hxd_cons : entity_structure_validator_run d (mkVState h2 none false 0)
        ({ code := 1001, value := w } ::
          (mid ++ { code := 1002, value := TagValue.str rbraceStr } :: post))
        = Except.error DXFErrorKind.xdataError := by
      simp only [entity_structure_validator_run, hstep1001, hmid_all]
    have hall := validator_run_append d pre
      (mkVState (TagValue.str "???") none false 0) (mkVState h2 none false 0)
      ({ code := 1001, value := w } ::
        (mid ++ { code := 1002, value := TagValue.str rbraceStr } :: post))
      hpre_run
    rw [hxd_cons] at hall
    rw [entity_structure_validator_eq, hini, hall]


/-- C10 witness: a concrete MTEXT whose embedded object marker is followed
by an unbalanced closing 1002 brace and a low group code; the validator
still succeeds and yields every tag. -/
theorem embedded_object_stops_validation_witness :
    entity_structure_validator
      [{ code := 0, value := TagValue.str "MTEXT" },
       { code := 101, value := TagValue.str "Embedded Object" },
       { code := 1002, value := TagValue.str rbraceStr },
       { code := 40, value := TagValue.num 0 }] =
      Except.ok
        [{ code := 0, value := TagValue.str "MTEXT" },
         { code := 101, value := TagValue.str "Embedded Object" },
         { code := 1002, value := TagValue.str rbraceStr },
         { code := 40, value := TagValue.num 0 }] :=
  embedded_object_stops_validation
    { code := 0, value := TagValue.str "MTEXT" } []
    [{ code := 1002, value := TagValue.str rbraceStr },
     { code := 40, value := TagValue.num 0 }]
    initial_vstate
    { code := 101, value := TagValue.str "Embedded Object" }
    (by rfl) rfl rfl rfl (by decide)

/-- C2 witness: the amended theorem applied at concrete inputs, one per
conjunct. -/
theorem validator_passthrough_and_balance_witness :
    (entity_structure_validator
       [{ code := 0, value := TagValue.str "LINE" },
        { code := 102, value := TagValue.str ("\x7bACAD" : String) },
        { code := 330, value := TagValue.str "DEAD" },
        { code := 102, value := TagValue.str rbraceStr },
        { code := 1001, value := TagValue.str "TEST" },
        { code := 1002, value := TagValue.str lbraceStr },
        { code := 1040, value := TagValue.num 1 },
        { code := 1002, value := TagValue.str rbraceStr }] =
     Except.ok
       [{ code := 0, value := TagValue.str "LINE" },
        { code := 102, value := TagValue.str ("\x7bACAD" : String) },
        { code := 330, value := TagValue.str "DEAD" },
        { code := 102, value := TagValue.str rbraceStr },
        { code := 1001, value := TagValue.str "TEST" },
        { code := 1002, value := TagValue.str lbraceStr },
        { code := 1040, value := TagValue.num 1 },
        { code := 1002, value := TagValue.str rbraceStr }]) ∧
    (entity_structure_validator
       [{ code := 0, value := TagValue.str "LINE" },
        { code := 102, value := TagValue.str ("\x7bACAD" : String) }] =
     Except.error DXFErrorKind.appDataError) ∧
    (entity_structure_validator
       [{ code := 0, value := TagValue.str "LINE" },
        { code := 102, value := TagValue.str rbraceStr }] =
     Except.error DXFErrorKind.appDataError) ∧
    (entity_structure_validator
       [{ code := 0, value := TagValue.str "LINE" },
        { code := 1001, value := TagValue.str "TEST" },
        { code := 1002, value := TagValue.str lbraceStr }] =
     Except.error DXFErrorKind.xdataError) ∧
    (entity_structure_validator
       [{ code := 0, value := TagValue.str "LINE" },
        { code := 1001, value := TagValue.str "TEST" },
        { code := 1002, value := TagValue.str rbraceStr }] =
     Except.error DXFErrorKind.xdataError) :=
  ⟨validator_passthrough_and_balance.1 _ (by decide),
   validator_passthrough_and_balance.2.1
     [{ code := 0, value := TagValue.str "LINE" }] [] "\x7bACAD"
     (by decide) (by decide) (by decide),
   validator_passthrough_and_balance.2.2.1
     [{ code := 0, value := TagValue.str "LINE" }] [] (by decide),
   validator_passthrough_and_balance.2.2.2.1
     [{ code := 0, value := TagValue.str "LINE" }] [] []
     (TagValue.str "TEST") (by decide) (by decide) (by decide),
   validator_passthrough_and_balance.2.2.2.2
     [{ code := 0, value := TagValue.str "LINE" }] [] []
     (TagValue.str "TEST") (by decide) (by decide)⟩


/-- Looking up the key just assigned in an OrderedDict finds the new
value. -/
theorem lookup_odSet_self :
    ∀ (l : List (String × TableEntry)) (k : String) (v : TableEntry),
      (odSet l k v).lookup k = some v := by
  intro l
  induction l with
  | nil => intro k v; simp [odSet, List.lookup]
  | cons p ts ih =>
    intro k v
    obtain ⟨k2, v2⟩ := p
    by_cases h : k2 = k
    · simp [odSet, h, List.lookup]
    · have hbe : (k == k2) = false :=
        beq_eq_false_iff_ne.mpr (fun hc => h hc.symm)
      simp only [odSet, if_neg h]
      simp [List.lookup, hbe, ih]

/-- Assigning an absent key in an OrderedDict appends at the end. -/
theorem odSet_of_lookup_none :
    ∀ (l : List (String × TableEntry)) (k : String) (v : TableEntry),
      l.lookup k = none → odSet l k v = l ++ [(k, v)] := by
  intro l
  induction l with
  | nil => intro k v _; simp [odSet]
  | cons p ts ih =>
    intro k v h
    obtain ⟨k2, v2⟩ := p
    by_cases hk : k2 = k
    · rw [hk] at h
      simp [List.lookup] at h
    · simp only [odSet, if_neg hk, List.cons_append, List.cons.injEq,
        true_and]
      have hbe : (k == k2) = false :=
        beq_eq_false_iff_ne.mpr (fun hc => hk hc.symm)
      refine ih k v ?_
      simpa [List.lookup, hbe] using h

/-- An absent key is not among the stored keys. -/
theorem lookup_none_not_mem :
    ∀ (l : List (String × TableEntry)) (k : String),
      l.lookup k = none → k ∉ l.map Prod.fst := by
  intro l
  induction l with
  | nil => intro k _; simp
  | cons p ts ih =>
    intro k h
    obtain ⟨k2, v2⟩ := p
    by_cases hk : k2 = k
    · rw [hk] at h
      simp [List.lookup] at h
    · have hbe : (k == k2) = false :=
        beq_eq_false_iff_ne.mpr (fun hc => hk hc.symm)
      simp only [List.lookup, hbe] at h
      simp only [List.map_cons, List.mem_cons]
      rintro (hc | hc)
      · exact hk hc.symm
      · exact ih k h hc

/-- C3: table.new fails on a second name differing only in case, and
table.get is case insensitive: it returns the entry stored under any
casing of the name and raises DXFTableEntryError exactly when no entry
with that key exists. -/
theorem table_new_get_case_insensitive :
    (∀ (t : Table) (n1 n2 : String), Table.key n1 = Table.key n2 →
      ∀ (t2 : Table) (e : TableEntry), t.new n1 = Except.ok (t2, e) →
      t2.new n2 = Except.error TableError.tableEntryError) ∧
    (∀ (t : Table) (n m : String), Table.key n = Table.key m →
      t.get n = t.get m) ∧
    (∀ (t : Table) (n : String) (e : TableEntry),
      t.entries.lookup (Table.key n) = some e → t.get n = Except.ok e) ∧
    (∀ (t : Table) (n : String),
      t.get n = Except.error TableError.tableEntryError ↔
        t.has_entry n = false) := by
  refine ⟨?_, ?_, ?_, ?_⟩
  · intro t n1 n2 hk t2 e hnew
    unfold Table.new at hnew
    split at hnew
    · exact absurd hnew (by simp)
    · simp only [Except.ok.injEq] at hnew
      have ht2 : t2 = t._append { name := n1, alive := true } := by
        have := congrArg Prod.fst hnew
        simpa [Table.new_entry] using this.symm
      have hhas : t2.has_entry n2 = true := by
        unfold Table.has_entry
        rw [ht2]
        unfold Table._append
        rw [← hk]
        simp [lookup_odSet_self]
      unfold Table.new
      simp [hhas]
  · intro t n m hk
    unfold Table.get
    rw [hk]
  · intro t n e h
    simp [Table.get, h]
  · intro t n
    unfold Table.get Table.has_entry
    cases hl : t.entries.lookup (Table.key n) with
    | none => simp
    | some e => simp

/-- C3 witness: with an empty table, new Layer1 succeeds, a second new
LAYER1 fails, get is case insensitive and a missing name raises. -/
theorem table_new_get_case_insensitive_witness :
    (Table.mk [("layer1", { name := "Layer1", alive := true })]).new "LAYER1"
      = Except.error TableError.tableEntryError ∧
    (Table.mk [("layer1", { name := "Layer1", alive := true })]).get "LaYeR1"
      = (Table.mk [("layer1", { name := "Layer1", alive := true })]).get
          "layer1" ∧
    (Table.mk [("layer1", { name := "Layer1", alive := true })]).get "LAYER1"
      = Except.ok { name := "Layer1", alive := true } ∧
    ((Table.mk []).get "Layer1" = Except.error TableError.tableEntryError ↔
      (Table.mk []).has_entry "Layer1" = false) :=
  ⟨table_new_get_case_insensitive.1 (Table.mk []) "Layer1" "LAYER1"
     (by decide)
     (Table.mk [("layer1", { name := "Layer1", alive := true })])
     { name := "Layer1", alive := true } (by rfl),
   table_new_get_case_insensitive.2.1 _ "LaYeR1" "layer1" (by decide),
   table_new_get_case_insensitive.2.2.1 _ "LAYER1"
     { name := "Layer1", alive := true } (by decide),
   table_new_get_case_insensitive.2.2.2 (Table.mk []) "Layer1"⟩

/-- Appending to a viewport table grows the flattened entry list by
exactly one. -/
theorem vod_flatten_length :
    ∀ (l : List (String × List TableEntry)) (k : String) (e : TableEntry),
      (((vodAppend l k e).map Prod.snd).flatten).length =
        ((l.map Prod.snd).flatten).length + 1 := by
  intro l
  induction l with
  | nil => intro k e; simp [vodAppend]
  | cons p ts ih =>
    intro k e
    obtain ⟨k2, es⟩ := p
    by_cases h : k2 = k
    · simp [vodAppend, h]
      omega
    · simp [vodAppend, h, ih]
      omega

/-- Appending to a viewport table raises the count of the appended entry
by one. -/
theorem vod_flatten_count :
    ∀ (l : List (String × List TableEntry)) (k : String) (e : TableEntry),
      (((vodAppend l k e).map Prod.snd).flatten).count e =
        ((l.map Prod.snd).flatten).count e + 1 := by
  intro l
  induction l with
  | nil => intro k e; simp [vodAppend]
  | cons p ts ih =>
    intro k e
    obtain ⟨k2, es⟩ := p
    by_cases h : k2 = k
    · simp [vodAppend, h, List.count_append]
      omega
    · simp [vodAppend, h, List.count_append, ih]
      omega

/-- Appending to a viewport table keeps every previously stored entry. -/
theorem vod_flatten_mem :
    ∀ (l : List (String × List TableEntry)) (k : String) (e x : TableEntry),
      x ∈ (l.map Prod.snd).flatten →
      x ∈ ((vodAppend l k e).map Prod.snd).flatten := by
  intro l
  induction l with
  | nil => intro k e x h; simp at h
  | cons p ts ih =>
    intro k e x h
    obtain ⟨k2, es⟩ := p
    simp only [List.map_cons, List.flatten_cons, List.mem_append] at h
    by_cases hk : k2 = k
    · simp only [vodAppend, if_pos hk, List.map_cons, List.flatten_cons,
        List.mem_append]
      rcases h with h | h
      · exact Or.inl (by simp [h])
      · exact Or.inr h
    · simp only [vodAppend, if_neg hk, List.map_cons, List.flatten_cons,
        List.mem_append]
      rcases h with h | h
      · exact Or.inl h
      · exact Or.inr (ih k e x h)

/-- C8: in a base table the stored names are unique under the case
insensitive key (the invariant holds initially, is kept by new, and two
entries at different positions always have different keys), while the
viewport table stores entries sharing a name as lists and its len and
iteration flatten them, counting and yielding every stored VPORT
individually. -/
theorem table_unique_names_viewport_lists :
    ((Table.mk []).wf) ∧
    (∀ (t : Table) (n : String) (t2 : Table) (e : TableEntry),
       t.wf → t.new n = Except.ok (t2, e) → t2.wf) ∧
    (∀ t : Table, t.wf →
       ∀ (i j : Fin t.entries.length), i ≠ j →
         Table.key (t.entries.get i).2.name ≠
           Table.key (t.entries.get j).2.name) ∧
    (∀ (vt : ViewportTable) (n : String),
       (vt.new n).1.len = vt.len + 1 ∧
       ((vt.new n).1.iter).count { name := n, alive := true } =
         (vt.iter).count { name := n, alive := true } + 1 ∧
       ∀ e ∈ vt.iter, e ∈ (vt.new n).1.iter) := by
  refine ⟨⟨by simp, by simp⟩, ?_, ?_, ?_⟩
  · intro t n t2 e hwf hnew
    unfold Table.new at hnew
    split at hnew
    · exact absurd hnew (by simp)
    · rename_i hhas
      simp only [Except.ok.injEq] at hnew
      have ht2 : t2 = t._append { name := n, alive := true } := by
        have := congrArg Prod.fst hnew
        simpa [Table.new_entry] using this.symm
      have hnone : t.entries.lookup (Table.key n) = none := by
        unfold Table.has_entry at hhas
        cases hl : t.entries.lookup (Table.key n) with
        | none => rfl
        | some v => rw [hl] at hhas; simp at hhas
      have happ : t2.entries = t.entries ++ [(Table.key n,
          { name := n, alive := true })] := by
        rw [ht2]
        unfold Table._append
        simp [odSet_of_lookup_none t.entries (Table.key n) _ hnone]
      constructor
      · intro p hp
        rw [happ] at hp
        simp only [List.mem_append, List.mem_singleton] at hp
        rcases hp with hp | hp
        · exact hwf.1 p hp
        · rw [hp]
      · rw [happ]
        simp only [List.map_append, List.map_cons, List.map_nil]
        rw [List.nodup_append]
        refine ⟨hwf.2, by simp, ?_⟩
        intro a ha hb
        simp at hb
        rw [hb] at ha
        exact lookup_none_not_mem t.entries (Table.key n) hnone ha
  · intro t hwf i j hij hcontra
    have h1 : (t.entries.get i).1 = Table.key (t.entries.get i).2.name :=
      hwf.1 _ (t.entries.get_mem i.1 i.2)
    have h2 : (t.entries.get j).1 = Table.key (t.entries.get j).2.name :=
      hwf.1 _ (t.entries.get_mem j.1 j.2)
    have hfst : (t.entries.map Prod.fst).get (i.cast (by simp)) =
        (t.entries.map Prod.fst).get (j.cast (by simp)) := by
      simp only [List.get_eq_getElem, List.getElem_map, Fin.coe_cast]
      rw [← List.get_eq_getElem, ← List.get_eq_getElem, h1, h2, hcontra]
    have := hwf.2.get_inj_iff.mp hfst
    apply hij
    have hcast := congrArg Fin.val this
    simp only [Fin.coe_cast] at hcast
    exact Fin.ext hcast
  · intro vt n
    refine ⟨?_, ?_, ?_⟩
    · unfold ViewportTable.new ViewportTable.len ViewportTable._flatten
      exact vod_flatten_length vt.entries (Table.key n) _
    · unfold ViewportTable.new ViewportTable.iter
      exact vod_flatten_count vt.entries (Table.key n) _
    · intro e he
      unfold ViewportTable.iter at he ⊢
      exact vod_flatten_mem vt.entries (Table.key n) _ e he

/-- C8 witness: the amended invariants at concrete tables: a two entry
well formed table has distinct keys at distinct positions, and a viewport
table with a duplicated name counts and yields both entries. -/
theorem table_unique_names_viewport_lists_witness :
    (Table.key ((Table.mk [("a", { name := "A", alive := true }),
        ("b", { name := "B", alive := true })]).entries.get
        ⟨0, by decide⟩).2.name ≠
      Table.key ((Table.mk [("a", { name := "A", alive := true }),
        ("b", { name := "B", alive := true })]).entries.get
        ⟨1, by decide⟩).2.name) ∧
    (((ViewportTable.mk [("v1", [{ name := "V1", alive := true }])]).new
        "V1").1.len =
      (ViewportTable.mk [("v1", [{ name := "V1", alive := true }])]).len
        + 1) :=
  ⟨table_unique_names_viewport_lists.2.2.1 _ (by constructor <;> decide)
     ⟨0, by decide⟩ ⟨1, by decide⟩ (by decide),
   (table_unique_names_viewport_lists.2.2.2
     (ViewportTable.mk [("v1", [{ name := "V1", alive := true }])])
     "V1").1⟩


/-- C9: plain_text strips the single character formatting codes and the
group braces, converts the P command into a line break, and returns
boldplain, a line break and next; with split it returns the two lines. -/
theorem plain_text_example :
    plain_text "\\L{bold}\\lplain\\Pnext" = "boldplain\nnext" ∧
    plain_text_split "\\L{bold}\\lplain\\Pnext" =
      ["boldplain", "next"] := by decide


/-- C1 counterexample: the stream consisting of exactly a base code 10
tag and its y tag (code 20) satisfies the claim hypothesis, yet
tag_compiler yields no vertex at all: fetching the z coordinate hits the
stream end and the generator returns, silently dropping the point. -/
theorem tag_compiler_drops_point_at_stream_end :
    ctxQ.POINT_CODES 10 = true ∧
    tag_compiler ctxQ
      [{ code := 10, value := (1 : ℚ) }, { code := 20, value := (2 : ℚ) }] =
      Except.ok [] := by
  refine ⟨by decide, ?_⟩
  have hpc : ctxQ.POINT_CODES 10 = true := by decide
  rw [tag_compiler.eq_def]
  simp [hpc]

/-- C1 (amended): whenever a recognized point base code tag is followed by
its mandatory y tag (code plus 10) and the stream does not end right
there, tag_compiler yields a single vertex tag carrying exactly the
parsed coordinates in order: with a z tag (code plus 20) a 3d vertex,
otherwise a 2d vertex while the third tag is pushed back and re-processed
as a standalone tag; a following tag whose code is not the base plus 10
raises DXFStructureError; if the stream ends immediately after the base
tag or after the y tag, the incomplete point is dropped without error. -/
theorem tag_compiler_point_sequences :
    (∀ {V : Type} (ctx : TagCompilerCtx V) (x y z : RawTag V)
       (rest : List (RawTag V)) (a b c : ℚ),
       ctx.POINT_CODES x.code = true → y.code = x.code + 10 →
       z.code = x.code + 20 →
       x.floatValue ctx = some a → y.floatValue ctx = some b →
       z.floatValue ctx = some c →
       tag_compiler ctx (x :: y :: z :: rest) =
         (tag_compiler ctx rest).map
           (fun l => CompiledTag.vertex x.code (Point.p3 a b c) :: l)) ∧
    (∀ {V : Type} (ctx : TagCompilerCtx V) (x y w : RawTag V)
       (rest : List (RawTag V)) (a b : ℚ),
       ctx.POINT_CODES x.code = true → y.code = x.code + 10 →
       w.code ≠ x.code + 20 →
       x.floatValue ctx = some a → y.floatValue ctx = some b →
       tag_compiler ctx (x :: y :: w :: rest) =
         (tag_compiler ctx (w :: rest)).map
           (fun l => CompiledTag.vertex x.code (Point.p2 a b) :: l)) ∧
    (∀ {V : Type} (ctx : TagCompilerCtx V) (x y : RawTag V)
       (rest : List (RawTag V)),
       ctx.POINT_CODES x.code = true → y.code ≠ x.code + 10 →
       tag_compiler ctx (x :: y :: rest) =
         Except.error DXFErrorKind.structureError) ∧
    (∀ {V : Type} (ctx : TagCompilerCtx V) (x : RawTag V),
       ctx.POINT_CODES x.code = true →
       tag_compiler ctx [x] = Except.ok []) ∧
    (∀ {V : Type} (ctx : TagCompilerCtx V) (x y : RawTag V),
       ctx.POINT_CODES x.code = true → y.code = x.code + 10 →
       tag_compiler ctx [x, y] = Except.ok []) := by
  refine ⟨?_, ?_, ?_, ?_, ?_⟩
  · intro V ctx x y z rest a b c hpc hy hz hfa hfb hfc
    have hz2 : (z.code == x.code + 20) = true := by simpa using hz
    rw [tag_compiler.eq_def]
    simp [hpc, hy, hz2, hfa, hfb, hfc]
  · intro V ctx x y w rest a b hpc hy hw hfa hfb
    have hw2 : (w.code == x.code + 20) = false := by simpa using hw
    rw [tag_compiler.eq_def]
    simp [hpc, hy, hw2, hfa, hfb]
  · intro V ctx x y rest hpc hy
    rw [tag_compiler.eq_def]
    simp [hpc, hy]
  · intro V ctx x hpc
    rw [tag_compiler.eq_def]
    simp [hpc]
  · intro V ctx x y hpc hy
    rw [tag_compiler.eq_def]
    simp [hpc, hy]

/-- C1 witness: the amended theorem applied at concrete streams over
parsed rational values. -/
theorem tag_compiler_point_sequences_witness :
    (tag_compiler ctxQ
       [{ code := 10, value := (1 : ℚ) }, { code := 20, value := (2 : ℚ) },
        { code := 30, value := (3 : ℚ) }, { code := 0, value := (0 : ℚ) }] =
     (tag_compiler ctxQ [{ code := 0, value := (0 : ℚ) }]).map
       (fun l => CompiledTag.vertex 10 (Point.p3 1 2 3) :: l)) ∧
    (tag_compiler ctxQ
       [{ code := 10, value := (1 : ℚ) }, { code := 20, value := (2 : ℚ) },
        { code := 40, value := (7 : ℚ) }] =
     (tag_compiler ctxQ [{ code := 40, value := (7 : ℚ) }]).map
       (fun l => CompiledTag.vertex 10 (Point.p2 1 2) :: l)) ∧
    (tag_compiler ctxQ
       [{ code := 10, value := (1 : ℚ) }, { code := 40, value := (2 : ℚ) }] =
     Except.error DXFErrorKind.structureError) ∧
    (tag_compiler ctxQ [{ code := 10, value := (1 : ℚ) }] = Except.ok []) ∧
    (tag_compiler ctxQ
       [{ code := 10, value := (1 : ℚ) }, { code := 20, value := (2 : ℚ) }] =
     Except.ok []) :=
  ⟨tag_compiler_point_sequences.1 ctxQ _ _ _ _ 1 2 3 (by decide) (by decide)
     (by decide) (by decide) (by decide) (by decide),
   tag_compiler_point_sequences.2.1 ctxQ _ _ _ _ 1 2 (by decide) (by decide)
     (by decide) (by decide) (by decide),
   tag_compiler_point_sequences.2.2.1 ctxQ _ _ _ (by decide) (by decide),
   tag_compiler_point_sequences.2.2.2.1 ctxQ _ (by decide),
   tag_compiler_point_sequences.2.2.2.2 ctxQ _ _ (by decide) (by decide)⟩


/-- The circumcenter is equidistant (in squared distance) from all three
defining points, whenever they are not collinear. -/
theorem circumcenter_equidistant (a b c : Vec2) (h : det3 a b c ≠ 0) :
    dist_sq (circumcenter a b c) a = dist_sq (circumcenter a b c) b ∧
    dist_sq (circumcenter a b c) a = dist_sq (circumcenter a b c) c := by
  obtain ⟨ax, ay⟩ := a
  obtain ⟨bx, by2⟩ := b
  obtain ⟨cx, cy⟩ := c
  simp only [det3] at h
  have hd : (2 : ℚ) * (ax * (by2 - cy) + bx * (cy - ay) + cx * (ay - by2))
      ≠ 0 := mul_ne_zero two_ne_zero h
  constructor
  · simp only [circumcenter, det3, dist_sq]
    field_simp
    ring
  · simp only [circumcenter, det3, dist_sq]
    field_simp
    ring

/-- C6: for three pairwise distinct, non collinear points, from_3p with
ccw true returns an arc whose center has equal squared distance to all
three input points (exact rational arithmetic standing in for within
floating tolerance), whose squared radius is that squared distance, and
whose start and end angles are the angles of the start and end input
points relative to that center, for every angle function. -/
theorem from_3p_center_equidistant_and_angles {A : Type} (ang : Vec2 → A)
    (sp ep dp : Vec2) (h1 : sp ≠ ep) (h2 : dp ≠ sp) (h3 : dp ≠ ep)
    (h4 : det3 sp ep dp ≠ 0) :
    ∃ arc : ConstructionArc A,
      ConstructionArc.from_3p ang sp ep dp true = Except.ok arc ∧
      dist_sq arc.center sp = dist_sq arc.center ep ∧
      dist_sq arc.center sp = dist_sq arc.center dp ∧
      arc.radius_sq = dist_sq arc.center sp ∧
      arc.start_angle = ang (vsub sp arc.center) ∧
      arc.end_angle = ang (vsub ep arc.center) := by
  obtain ⟨heq1, heq2⟩ := circumcenter_equidistant sp ep dp h4
  refine ⟨{ center := circumcenter sp ep dp,
            radius_sq := dist_sq (circumcenter sp ep dp) sp,
            start_angle := ang (vsub sp (circumcenter sp ep dp)),
            end_angle := ang (vsub ep (circumcenter sp ep dp)) },
    ?_, heq1, heq2, rfl, rfl, rfl⟩
  simp only [ConstructionArc.from_3p, ConstructionCircle.from_3p,
    ConstructionArc.make]
  rw [if_neg h1, if_neg (by push_neg; exact ⟨h2, h3⟩), if_neg h4]
  rfl

/-- C6 witness: the theorem applied to the points (0,0), (2,0), (0,2)
with the identity angle function. -/
theorem from_3p_center_equidistant_and_angles_witness :
    ∃ arc : ConstructionArc Vec2,
      ConstructionArc.from_3p (fun v => v) ((0 : ℚ), (0 : ℚ))
        ((2 : ℚ), (0 : ℚ)) ((0 : ℚ), (2 : ℚ)) true = Except.ok arc ∧
      dist_sq arc.center ((0 : ℚ), (0 : ℚ)) =
        dist_sq arc.center ((2 : ℚ), (0 : ℚ)) ∧
      dist_sq arc.center ((0 : ℚ), (0 : ℚ)) =
        dist_sq arc.center ((0 : ℚ), (2 : ℚ)) ∧
      arc.radius_sq = dist_sq arc.center ((0 : ℚ), (0 : ℚ)) ∧
      arc.start_angle = vsub ((0 : ℚ), (0 : ℚ)) arc.center ∧
      arc.end_angle = vsub ((2 : ℚ), (0 : ℚ)) arc.center :=
  from_3p_center_equidistant_and_angles (fun v => v) _ _ _
    (by norm_num [Prod.ext_iff]) (by norm_num [Prod.ext_iff])
    (by norm_num [Prod.ext_iff]) (by norm_num [det3])


/-- getD after set at the written index. -/
theorem getD_set_self (l : List ℚ) (i : ℕ) (v : ℚ) (h : i < l.length) :
    (l.set i v).getD i 0 = v := by
  simp [List.getD_eq_getElem?_getD, List.getElem?_set_self, h]

/-- getD after set at another index. -/
theorem getD_set_other (l : List ℚ) (i j : ℕ) (v : ℚ) (h : i ≠ j) :
    (l.set i v).getD j 0 = l.getD j 0 := by
  simp [List.getD_eq_getElem?_getD, List.getElem?_set_ne h]

/-- Monotone access into a sorted knot vector. -/
theorem sorted_getD (l : List ℚ) (hs : l.Sorted (· ≤ ·)) (a b : ℕ)
    (hab : a ≤ b) (hb : b < l.length) : l.getD a 0 ≤ l.getD b 0 := by
  have ha : a < l.length := lt_of_le_of_lt hab hb
  rw [List.getD_eq_getElem?_getD, List.getElem?_eq_getElem ha,
    List.getD_eq_getElem?_getD, List.getElem?_eq_getElem hb]
  simp only [Option.getD_some]
  rcases lt_or_eq_of_le hab with h | h
  · exact List.Sorted.rel_get_of_lt hs (by simpa using h)
  · subst h; rfl

/-- The support of the Cox de Boor basis: a nonzero N(i, p) forces the
parameter into the half open knot span from knots i to knots i plus p
plus 1. -/
theorem bspline_basis_N_support (knots : List ℚ) (u : ℚ)
    (hs : knots.Sorted (· ≤ ·)) :
    ∀ (p i : ℕ), i + p + 1 < knots.length →
      bspline_basis_N knots u i p ≠ 0 →
      knots.getD i 0 ≤ u ∧ u < knots.getD (i + p + 1) 0 := by
  intro p
  induction p with
  | zero =>
    intro i hb hn
    rw [bspline_basis_N] at hn
    split at hn
    · rename_i hcond
      simpa using hcond
    · simp at hn
  | succ p ih =>
    intro i hb hn
    rw [bspline_basis_N] at hn
    have hor : bspline_basis_N knots u i p ≠ 0 ∨
        bspline_basis_N knots u (i + 1) p ≠ 0 := by
      by_contra hc
      push_neg at hc
      apply hn
      rw [hc.1, hc.2]
      simp
    rcases hor with hN | hN
    · obtain ⟨hl, hr⟩ := ih i (by omega) hN
      refine ⟨hl, lt_of_lt_of_le hr ?_⟩
      have hle : i + p + 1 ≤ i + (p + 1) + 1 := by omega
      exact sorted_getD knots hs _ _ hle (by omega)
    · obtain ⟨hl, hr⟩ := ih (i + 1) (by omega) hN
      have h1le : knots.getD i 0 ≤ knots.getD (i + 1) 0 :=
        sorted_getD knots hs _ _ (by omega) (by omega)
      refine ⟨le_trans h1le hl, ?_⟩
      have heq : (i + 1) + p + 1 = i + (p + 1) + 1 := by omega
      rw [heq] at hr
      exact hr


/-- One Cox de Boor recursion step: the iterative guards (testing the
lower order basis values) agree with the recursive guards (testing the
knot span denominators) over a sorted knot vector. -/
theorem cox_step (knots : List ℚ) (u : ℚ)
    (hs : knots.Sorted (· ≤ ·)) (m i : ℕ) (hb : i + m + 2 < knots.length) :
    (if bspline_basis_N knots u i m ≠ 0 then
       ((u - knots.getD i 0) * bspline_basis_N knots u i m) /
         (knots.getD (i + m + 1) 0 - knots.getD i 0)
     else 0) +
    (if bspline_basis_N knots u (i + 1) m ≠ 0 then
       ((knots.getD (i + m + 2) 0 - u) * bspline_basis_N knots u (i + 1) m)
         / (knots.getD (i + m + 2) 0 - knots.getD (i + 1) 0)
     else 0) =
    bspline_basis_N knots u i (m + 1) := by
  rw [bspline_basis_N]
  have t1 : (if bspline_basis_N knots u i m ≠ 0 then
       ((u - knots.getD i 0) * bspline_basis_N knots u i m) /
         (knots.getD (i + m + 1) 0 - knots.getD i 0)
     else 0) =
      (if knots.getD (i + m + 1) 0 - knots.getD i 0 ≠ 0 then
        (u - knots.getD i 0) / (knots.getD (i + m + 1) 0 - knots.getD i 0) *
          bspline_basis_N knots u i m
      else 0) := by
    by_cases hN : bspline_basis_N knots u i m = 0
    · simp [hN]
    · obtain ⟨hl, hr⟩ := bspline_basis_N_support knots u hs m i (by omega) hN
      have hdom : knots.getD (i + m + 1) 0 - knots.getD i 0 ≠ 0 :=
        sub_ne_zero.mpr (ne_of_gt (lt_of_le_of_lt hl hr))
      rw [if_pos hN, if_pos hdom, div_mul_eq_mul_div]
  have t2 : (if bspline_basis_N knots u (i + 1) m ≠ 0 then
       ((knots.getD (i + m + 2) 0 - u) * bspline_basis_N knots u (i + 1) m)
         / (knots.getD (i + m + 2) 0 - knots.getD (i + 1) 0)
     else 0) =
      (if knots.getD (i + m + 2) 0 - knots.getD (i + 1) 0 ≠ 0 then
        (knots.getD (i + m + 2) 0 - u) /
            (knots.getD (i + m + 2) 0 - knots.getD (i + 1) 0) *
          bspline_basis_N knots u (i + 1) m
      else 0) := by
    by_cases hN : bspline_basis_N knots u (i + 1) m = 0
    · simp [hN]
    · obtain ⟨hl, hr⟩ :=
        bspline_basis_N_support knots u hs m (i + 1) (by omega) hN
      have heq : i + 1 + m + 1 = i + m + 2 := by omega
      rw [heq] at hr
      have hdom : knots.getD (i + m + 2) 0 - knots.getD (i + 1) 0 ≠ 0 :=
        sub_ne_zero.mpr (ne_of_gt (lt_of_le_of_lt hl hr))
      rw [if_pos hN, if_pos hdom, div_mul_eq_mul_div]
  rw [t1, t2]

/-- Length of the first order basis list. -/
theorem create_nbasis_length (b : Basis) (t : ℚ) :
    (b.create_nbasis t).length = b.knots.length - 1 := by
  simp [Basis.create_nbasis]

/-- The first order basis list holds the order one Cox de Boor values. -/
theorem create_nbasis_getD (b : Basis) (t : ℚ) (i : ℕ)
    (hi : i + 1 < b.knots.length) :
    (b.create_nbasis t).getD i 0 = bspline_basis_N b.knots t i 0 := by
  rw [bspline_basis_N]
  unfold Basis.create_nbasis
  have hzlen : i < (b.knots.zip b.knots.tail).length := by
    simp [List.length_zip, List.length_tail]
    omega
  have hki : i < b.knots.length := by omega
  have hti : i < b.knots.tail.length := by
    simp [List.length_tail]
    omega
  rw [List.getD_eq_getElem?_getD, List.getElem?_map,
    List.getElem?_eq_getElem hzlen]
  simp only [List.getElem_zip, Option.map_some, Option.getD_some,
    List.getElem_tail]
  rw [List.getD_eq_getElem?_getD, List.getElem?_eq_getElem hki,
    List.getD_eq_getElem?_getD, List.getElem?_eq_getElem (by omega :
      i + 1 < b.knots.length)]
  simp


/-- The inner loop of Basis.basis at level k = m + 2: starting from a row
holding the order m + 1 values, it overwrites the first nplusc - k
entries with the order m + 2 values and leaves the rest untouched. -/
theorem inner_loop_spec (knots : List ℚ) (t : ℚ)
    (hs : knots.Sorted (· ≤ ·)) (m : ℕ) :
    ∀ (n : ℕ) (nb0 : List ℚ),
      n + m + 2 ≤ knots.length →
      n < nb0.length →
      (∀ i, i < n + 1 → nb0.getD i 0 = bspline_basis_N knots t i m) →
      ((List.range n).foldl (basis_step knots t (m + 2)) nb0).length =
          nb0.length ∧
      (∀ i, i < n →
        ((List.range n).foldl (basis_step knots t (m + 2)) nb0).getD i 0 =
          bspline_basis_N knots t i (m + 1)) ∧
      (∀ i, n ≤ i →
        ((List.range n).foldl (basis_step knots t (m + 2)) nb0).getD i 0 =
          nb0.getD i 0) := by
  intro n
  induction n with
  | zero =>
    intro nb0 _ _ _
    exact ⟨rfl, fun i hi => absurd hi (by omega), fun i _ => rfl⟩
  | succ n ih =>
    intro nb0 hb hn hold
    obtain ⟨ihlen, ihnew, ihold⟩ := ih nb0 (by omega) (by omega)
      (fun i hi => hold i (by omega))
    rw [List.range_succ, List.foldl_append, List.foldl_cons, List.foldl_nil]
    set nb1 := (List.range n).foldl (basis_step knots t (m + 2)) nb0
      with hnb1
    have hr1 : nb1.getD n 0 = bspline_basis_N knots t n m := by
      rw [ihold n le_rfl]
      exact hold n (by omega)
    have hr2 : nb1.getD (n + 1) 0 = bspline_basis_N knots t (n + 1) m := by
      rw [ihold (n + 1) (by omega)]
      exact hold (n + 1) (by omega)
    have hstep : basis_step knots t (m + 2) nb1 n =
        nb1.set n (bspline_basis_N knots t n (m + 1)) := by
      simp only [basis_step]
      rw [hr1, hr2]
      have e1 : n + (m + 2) - 1 = n + m + 1 := by omega
      have e2 : n + (m + 2) = n + m + 2 := by omega
      rw [e1, e2, cox_step knots t hs m n (by omega)]
    rw [hstep]
    have hsetlen : (nb1.set n (bspline_basis_N knots t n (m + 1))).length =
        nb0.length := by
      rw [List.length_set]
      exact ihlen
    refine ⟨hsetlen, ?_, ?_⟩
    · intro i hi
      by_cases hin : i = n
      · subst hin
        rw [getD_set_self]
        rw [ihlen]
        omega
      · rw [getD_set_other _ _ _ _ (fun hc => hin hc.symm)]
        exact ihnew i (by omega)
    · intro i hi
      rw [getD_set_other _ _ _ _ (by omega)]
      exact ihold i (by omega)


/-- The outer loop of Basis.basis: after the levels 2 up to j + 1 ran,
the row holds the order j + 1 Cox de Boor values in its first
nplusc - (j + 1) entries. -/
theorem outer_loop_spec (knots : List ℚ) (t : ℚ)
    (hs : knots.Sorted (· ≤ ·)) (count order : ℕ) (hcount : 1 ≤ count)
    (hlen : knots.length = count + order) :
    ∀ j, j + 1 ≤ order →
      (((List.range' 2 j).foldl
          (fun nb k =>
            (List.range (count + order - k)).foldl (basis_step knots t k) nb)
          ((Basis.mk knots order count none).create_nbasis t)).length =
        count + order - 1) ∧
      (∀ i, i < count + order - (j + 1) →
        ((List.range' 2 j).foldl
          (fun nb k =>
            (List.range (count + order - k)).foldl (basis_step knots t k) nb)
          ((Basis.mk knots order count none).create_nbasis t)).getD i 0 =
          bspline_basis_N knots t i j) := by
  intro j
  induction j with
  | zero =>
    intro _
    constructor
    · rw [List.range'_zero, List.foldl_nil, create_nbasis_length]
      simp [hlen]
    · intro i hi
      rw [List.range'_zero, List.foldl_nil, create_nbasis_getD]
      simp only
      omega
  | succ j ih =>
    intro hj
    obtain ⟨ihlen, ihv⟩ := ih (by omega)
    rw [List.range'_concat, List.foldl_append, List.foldl_cons,
      List.foldl_nil]
    have hk : 2 + 1 * j = j + 2 := by omega
    rw [hk]
    obtain ⟨slen, snew, _⟩ := inner_loop_spec knots t hs j
      (count + order - (j + 2))
      ((List.range' 2 j).foldl
        (fun nb k =>
          (List.range (count + order - k)).foldl (basis_step knots t k) nb)
        ((Basis.mk knots order count none).create_nbasis t))
      (by omega) (by rw [ihlen]; omega)
      (fun i hi => ihv i (by omega))
    constructor
    · rw [slen, ihlen]
    · intro i hi
      exact snew i (by omega)


/-- Two lists of equal length and equal getD reads agree. -/
theorem list_ext_getD (l1 l2 : List ℚ) (hlen : l1.length = l2.length)
    (h : ∀ i, i < l1.length → l1.getD i 0 = l2.getD i 0) : l1 = l2 := by
  apply List.ext_getElem hlen
  intro i h1 h2
  have hh := h i h1
  rwa [List.getD_eq_getElem _ _ h1, List.getD_eq_getElem _ _ h2] at hh

/-- getD through take, inside both bounds. -/
theorem getD_take (l : List ℚ) (n i : ℕ) (hi : i < n) (hl : i < l.length) :
    (l.take n).getD i 0 = l.getD i 0 := by
  have h1 : i < (l.take n).length := by
    rw [List.length_take]
    omega
  rw [List.getD_eq_getElem _ _ h1, List.getD_eq_getElem _ _ hl,
    List.getElem_take]

/-- getD into a mapped range. -/
theorem getD_map_range (f : ℕ → ℚ) (n i : ℕ) (hi : i < n) :
    ((List.range n).map f).getD i 0 = f i := by
  have h1 : i < ((List.range n).map f).length := by
    simp [hi]
  rw [List.getD_eq_getElem _ _ h1, List.getElem_map, List.getElem_range]

/-- C7: the two B-spline basis evaluation paths agree.  For every sorted
knot vector of length count + order with order at least 1 and count at
least 1, and every parameter t, the iterative tabulation Basis.basis
(without weights) returns exactly the vector assembled by
bspline_basis_vector from the recursive Cox de Boor function
bspline_basis, including the endpoint patch when isclose fires at the
last knot. -/
theorem basis_iterative_matches_recursive (isclose : ℚ → ℚ → Bool)
    (knots : List ℚ) (order count : ℕ) (t : ℚ)
    (hs : knots.Sorted (· ≤ ·)) (horder : 1 ≤ order) (hcount : 1 ≤ count)
    (hlen : knots.length = count + order) :
    (Basis.mk knots order count none).basis isclose t =
      bspline_basis_vector isclose t count (order - 1) knots := by
  obtain ⟨flen, fval⟩ := outer_loop_spec knots t hs count order hcount hlen
    (order - 1) (by omega)
  have hmain : (Basis.mk knots order count none).basis isclose t =
      (if isclose t (knots.getLastD 0) then
        ((List.range' 2 (order - 1)).foldl
          (fun nb k =>
            (List.range (count + order - k)).foldl (basis_step knots t k) nb)
          ((Basis.mk knots order count none).create_nbasis t)).set
            (count - 1) 1
       else
        (List.range' 2 (order - 1)).foldl
          (fun nb k =>
            (List.range (count + order - k)).foldl (basis_step knots t k) nb)
          ((Basis.mk knots order count none).create_nbasis t)).take count :=
    rfl
  have hrhs : bspline_basis_vector isclose t count (order - 1) knots =
      (if isclose t (knots.getLastD 0) then
        ((List.range count).map
          (fun index => bspline_basis t index (order - 1) knots)).set
            (count - 1) 1
       else
        (List.range count).map
          (fun index => bspline_basis t index (order - 1) knots)) := rfl
  rw [hmain, hrhs]
  set L := (List.range' 2 (order - 1)).foldl
    (fun nb k =>
      (List.range (count + order - k)).foldl (basis_step knots t k) nb)
    ((Basis.mk knots order count none).create_nbasis t) with hLdef
  have hLval : ∀ i, i < count → L.getD i 0 = bspline_basis_N knots t i
      (order - 1) := by
    intro i hi
    exact fval i (by omega)
  by_cases hcl : isclose t (knots.getLastD 0) = true
  · rw [if_pos hcl, if_pos hcl]
    apply list_ext_getD
    · simp [flen]
      omega
    · intro i hi
      have hic : i < count := by
        rw [List.length_take, List.length_set, flen] at hi
        omega
      rw [getD_take _ _ _ hic (by rw [List.length_set, flen]; omega)]
      by_cases hie : i = count - 1
      · subst hie
        rw [getD_set_self _ _ _ (by rw [flen]; omega),
          getD_set_self _ _ _ (by simp; omega)]
      · rw [getD_set_other _ _ _ _ (fun hc => hie hc.symm),
          getD_set_other _ _ _ _ (fun hc => hie hc.symm),
          hLval i hic, getD_map_range _ _ _ hic]
        rfl
  · rw [if_neg hcl, if_neg hcl]
    apply list_ext_getD
    · simp [flen]
      omega
    · intro i hi
      have hic : i < count := by
        rw [List.length_take, flen] at hi
        omega
      rw [getD_take _ _ _ hic (by rw [flen]; omega),
        hLval i hic, getD_map_range _ _ _ hic]
      rfl

/-- C7 witness at a concrete clamped cubic knot vector. -/
theorem basis_iterative_matches_recursive_witness :
    (Basis.mk [(0:ℚ), 0, 0, 0, 1, 2, 3, 3, 3, 3] 4 6 none).basis
        (fun a b => a == b) (1/2) =
      bspline_basis_vector (fun a b => a == b) (1/2) 6 (4 - 1)
        [(0:ℚ), 0, 0, 0, 1, 2, 3, 3, 3, 3] :=
  basis_iterative_matches_recursive (fun a b => a == b)
    [(0:ℚ), 0, 0, 0, 1, 2, 3, 3, 3, 3] 4 6 (1/2)
    (by norm_num [List.sorted_cons]) (by norm_num) (by norm_num)
    (by norm_num)

/-- collect of the empty generator. -/
theorem collect_nil {A B : Type} :
    collect ([] : List (List A × List B)) = ([], []) := rfl

/-- collect unfolds one generator step. -/
theorem collect_cons {A B : Type} (p : List A × List B)
    (ps : List (List A × List B)) :
    collect (p :: ps) = (p.1 ++ (collect ps).1, p.2 ++ (collect ps).2) :=
  rfl

/-- collect distributes over concatenation of generator runs. -/
theorem collect_append {A B : Type} (l1 l2 : List (List A × List B)) :
    collect (l1 ++ l2) =
      ((collect l1).1 ++ (collect l2).1,
        (collect l1).2 ++ (collect l2).2) := by
  induction l1 with
  | nil => simp [collect_nil]
  | cons p l1 ih =>
    rw [List.cons_append, collect_cons, collect_cons, ih]
    simp [List.append_assoc]

/-- The yielded entities of the whole pipeline are the main loop applied
to the disassembled stream: decomposition happens before scaling. -/
theorem vbre_structure {E : Type} (ctx : XCtx E) (hs hnus : Bool)
    (es : List E) :
    (collect (es.map (vbre_block_entity ctx hs hnus))).1 =
      (collect ((disassemble ctx hnus es).1.map
        (vbre_entity ctx hs hnus))).1 := by
  induction es with
  | nil => rfl
  | cons a es ih =>
    rw [List.map_cons, collect_cons]
    have hd : (disassemble ctx hnus (a :: es)).1 =
        (disassemble_entity ctx hnus a).1 ++ (disassemble ctx hnus es).1 := by
      simp only [disassemble, List.map_cons, collect_cons]
    rw [hd, List.map_append, collect_append]
    simp only [vbre_block_entity]
    rw [ih]

/-- C4: block reference decomposition under non uniform scaling.  With
unequal absolute axis scale factors or any reflection the detection
flag has_non_uniform_scaling is set; the pipeline feeds the scaling
main loop with the disassembled stream; every ARC and CIRCLE is
disassembled to Ellipse.from_arc, hence an ELLIPSE; every (LW)POLYLINE
with arc segments is first decomposed into its virtual entities with
ARC segments converted to ELLIPSE; and a block entity whose copy has no
WCS transformation is skipped with a non transformable notification
while all entities of the surrounding block list are still produced. -/
theorem explode_nonuniform_scaling_behaviour {E : Type} (ctx : XCtx E)
    (x y z : ℚ) (hs : Bool)
    (hfe : ∀ s, ctx.dxftype (ctx.from_arc s) = "ELLIPSE")
    (hnu : ¬(|x| = |y| ∧ |y| = |z|) ∨ x < 0 ∨ y < 0 ∨ z < 0) :
    has_non_uniform_scaling true x y z = true ∧
    (∀ es, (virtual_block_reference_entities ctx hs x y z es).1 =
      (collect
        ((disassemble ctx (has_non_uniform_scaling hs x y z) es).1.map
          (vbre_entity ctx hs (has_non_uniform_scaling hs x y z)))).1) ∧
    (∀ e, (ctx.dxftype e = "ARC" ∨ ctx.dxftype e = "CIRCLE") →
      disassemble_entity ctx (has_non_uniform_scaling true x y z) e =
        ([ctx.from_arc e], []) ∧
      ∀ s ∈ (disassemble_entity ctx
          (has_non_uniform_scaling true x y z) e).1,
        ctx.dxftype s = "ELLIPSE") ∧
    (∀ e, (ctx.dxftype e = "LWPOLYLINE" ∨ ctx.dxftype e = "POLYLINE") →
      ctx.has_arc e = true →
      disassemble_entity ctx (has_non_uniform_scaling true x y z) e =
        ((ctx.virtual_entities e).map
          (fun s => if ctx.dxftype s = "ARC" then ctx.from_arc s else s),
          []) ∧
      ∀ s ∈ (disassemble_entity ctx
          (has_non_uniform_scaling true x y z) e).1,
        (ctx.dxftype s = "ELLIPSE" ∨
          (ctx.dxftype s ≠ "ARC" ∧ s ∈ ctx.virtual_entities e))) ∧
    (∀ es1 e es2 c,
      disassemble_entity ctx (has_non_uniform_scaling hs x y z) e =
        ([c], []) →
      ctx.transform_to_wcs c = none →
      (virtual_block_reference_entities ctx hs x y z
          (es1 ++ e :: es2)).1 =
        (virtual_block_reference_entities ctx hs x y z es1).1 ++
        (virtual_block_reference_entities ctx hs x y z es2).1 ∧
      (c, "non transformable") ∈
        (virtual_block_reference_entities ctx hs x y z
          (es1 ++ e :: es2)).2) := by
  have hflag : has_non_uniform_scaling true x y z = true := by
    show ((!(has_uniform_scaling x y z)) ||
      (has_uniform_scaling x y z && decide (x < 0))) = true
    by_cases h : x = y ∧ y = z
    · have hu : has_uniform_scaling x y z = true := by
        simp [has_uniform_scaling, h.1, h.2]
      rw [hu]
      simp only [Bool.not_true, Bool.false_or, Bool.true_and,
        decide_eq_true_iff]
      rcases hnu with habs | hx | hy | hz
      · exact absurd ⟨by rw [h.1], by rw [h.2]⟩ habs
      · exact hx
      · rw [h.1]
        exact hy
      · rw [h.1, h.2]
        exact hz
    · have hu : has_uniform_scaling x y z = false := by
        cases hb : has_uniform_scaling x y z
        · rfl
        · exfalso
          apply h
          have hb2 := hb
          simp [has_uniform_scaling] at hb2
          exact hb2
      rw [hu]
      simp
  refine ⟨hflag, ?_, ?_, ?_, ?_⟩
  · intro es
    simp only [virtual_block_reference_entities]
    rw [vbre_structure]
  · intro e hde
    have h1 : ¬ ctx.dxftype e = "ATTDEF" := by
      rcases hde with h | h <;> rw [h] <;> decide
    have heq : disassemble_entity ctx
        (has_non_uniform_scaling true x y z) e = ([ctx.from_arc e], []) := by
      simp only [disassemble_entity]
      rw [if_neg h1, if_pos ⟨hflag, hde⟩]
    refine ⟨heq, ?_⟩
    intro s hsm
    simp only [heq, List.mem_singleton] at hsm
    rw [hsm]
    exact hfe e
  · intro e hde harc
    have h1 : ¬ ctx.dxftype e = "ATTDEF" := by
      rcases hde with h | h <;> rw [h] <;> decide
    have h2 : ¬(has_non_uniform_scaling true x y z = true ∧
        (ctx.dxftype e = "ARC" ∨ ctx.dxftype e = "CIRCLE")) := by
      rintro ⟨-, hc | hc⟩ <;> rcases hde with h | h <;> rw [h] at hc <;>
        exact absurd hc (by decide)
    have heq : disassemble_entity ctx
        (has_non_uniform_scaling true x y z) e =
        ((ctx.virtual_entities e).map
          (fun s => if ctx.dxftype s = "ARC" then ctx.from_arc s else s),
          []) := by
      simp only [disassemble_entity]
      rw [if_neg h1, if_neg h2, if_pos ⟨hflag, hde, harc⟩]
    refine ⟨heq, ?_⟩
    intro s hsm
    simp only [heq, List.mem_map] at hsm
    obtain ⟨a, ha, hfa⟩ := hsm
    by_cases hat : ctx.dxftype a = "ARC"
    · left
      rw [← hfa, if_pos hat]
      exact hfe a
    · right
      rw [← hfa, if_neg hat]
      exact ⟨hat, ha⟩
  · intro es1 e es2 c hd ht
    have hblock : vbre_block_entity ctx hs
        (has_non_uniform_scaling hs x y z) e =
        ([], [(c, "non transformable")]) := by
      simp only [vbre_block_entity, hd]
      simp [vbre_entity, ht, collect_cons, collect_nil]
    constructor
    · simp only [virtual_block_reference_entities]
      rw [List.map_append, List.map_cons, collect_append, collect_cons,
        hblock]
      simp
    · simp only [virtual_block_reference_entities]
      rw [List.map_append, List.map_cons, collect_append, collect_cons,
        hblock]
      simp

/-- C4 witness: a uniform reflection (-2, -2, -2) in the concrete
entity world. -/
theorem explode_nonuniform_scaling_behaviour_witness :
    has_non_uniform_scaling true (-2) (-2) (-2) = true ∧
    (∀ es, (virtual_block_reference_entities demo_xctx true
        (-2) (-2) (-2) es).1 =
      (collect
        ((disassemble demo_xctx
            (has_non_uniform_scaling true (-2) (-2) (-2)) es).1.map
          (vbre_entity demo_xctx true
            (has_non_uniform_scaling true (-2) (-2) (-2))))).1) ∧
    (∀ e, (demo_xctx.dxftype e = "ARC" ∨
        demo_xctx.dxftype e = "CIRCLE") →
      disassemble_entity demo_xctx
          (has_non_uniform_scaling true (-2) (-2) (-2)) e =
        ([demo_xctx.from_arc e], []) ∧
      ∀ s ∈ (disassemble_entity demo_xctx
          (has_non_uniform_scaling true (-2) (-2) (-2)) e).1,
        demo_xctx.dxftype s = "ELLIPSE") ∧
    (∀ e, (demo_xctx.dxftype e = "LWPOLYLINE" ∨
        demo_xctx.dxftype e = "POLYLINE") →
      demo_xctx.has_arc e = true →
      disassemble_entity demo_xctx
          (has_non_uniform_scaling true (-2) (-2) (-2)) e =
        ((demo_xctx.virtual_entities e).map
          (fun s => if demo_xctx.dxftype s = "ARC" then
            demo_xctx.from_arc s else s),
          []) ∧
      ∀ s ∈ (disassemble_entity demo_xctx
          (has_non_uniform_scaling true (-2) (-2) (-2)) e).1,
        (demo_xctx.dxftype s = "ELLIPSE" ∨
          (demo_xctx.dxftype s ≠ "ARC" ∧
            s ∈ demo_xctx.virtual_entities e))) ∧
    (∀ es1 e es2 c,
      disassemble_entity demo_xctx
          (has_non_uniform_scaling true (-2) (-2) (-2)) e = ([c], []) →
      demo_xctx.transform_to_wcs c = none →
      (virtual_block_reference_entities demo_xctx true (-2) (-2) (-2)
          (es1 ++ e :: es2)).1 =
        (virtual_block_reference_entities demo_xctx true
          (-2) (-2) (-2) es1).1 ++
        (virtual_block_reference_entities demo_xctx true
          (-2) (-2) (-2) es2).1 ∧
      (c, "non transformable") ∈
        (virtual_block_reference_entities demo_xctx true (-2) (-2) (-2)
          (es1 ++ e :: es2)).2) :=
  explode_nonuniform_scaling_behaviour demo_xctx (-2) (-2) (-2) true
    (fun _ => rfl) (Or.inr (Or.inl (by norm_num)))

end DXF
